import Mathlib

/-!
# simplecoremidi: the receive buffer, the packet codec and the endpoint lifecycle

A shallow embedding of `src/simplecoremidi/_simplecoremidi.c`.

* C heap objects (the three `_SCMMIDI*` records and the `CFMutableData`
  receive buffers) live in association lists keyed by address inside `World`.
* Every call into CoreMIDI, and every allocation or release, is appended to
  `World.log` in program order.
* The answers of the driver (statuses, the references it hands out, the
  enumerated endpoints) are the fields of `Driver`.
* Behaviour that C leaves undefined (a store past the end of a local array, a
  read of a field that was never written, an access through a released
  object) is a `Fault`.
-/

namespace SimpleCoreMidi

/-! ## Scalars and references -/

/-- One octet (`Byte`, `UInt8`). -/
abbrev Byte := Fin 256

/-- The CoreMIDI status code; `0` is `noErr`. -/
abbrev OSStatus := Int

abbrev MIDIClientRef := Nat
abbrev MIDIEndpointRef := Nat
abbrev MIDIPortRef := Nat
abbrev CFMutableDataRef := Nat

/-- The conversion `PyInt_AsLong` / `PyLong_AsLong`: a Python integer that does not
fit a 64-bit `long` yields `-1` (the error indicator is set, and the callers
below never look at it). -/
def PyInt_AsLong (x : Int) : Int :=
  if -(2 : Int) ^ 63 ≤ x ∧ x < (2 : Int) ^ 63 then x else -1

/-- The C conversion of a `long` to `Byte` in `midiDataToSend[i] = ...`. -/
def toByte (x : Int) : Byte := Fin.ofNat (x % 256).toNat

/-- The conversion `PyInt_FromLong(*bytePtr)` / `PyLong_FromLong(*bytePtr)`. -/
def PyInt_FromLong (b : Byte) : Int := (b.val : Int)

/-! ## Packet lists -/

/-- The record `MIDIPacket`: a time stamp, the `length` field and the bytes found at `data`. -/
structure MIDIPacket where
  timeStamp : Nat
  length : Nat
  data : List Byte
deriving DecidableEq, Repr

/-- The record `MIDIPacketList`: the `numPackets` field and the packets laid out after it;
`MIDIPacketNext` steps to the tail. -/
structure MIDIPacketList where
  numPackets : Nat
  packet : List MIDIPacket
deriving DecidableEq, Repr

/-- A packet list as the driver delivers it: `numPackets` packets are present and each
holds at least `length` data bytes. -/
def MIDIPacketList.WellFormed (pktList : MIDIPacketList) : Prop :=
  pktList.numPackets = pktList.packet.length ∧
    ∀ pkt ∈ pktList.packet, pkt.length ≤ pkt.data.length

instance (pktList : MIDIPacketList) : Decidable pktList.WellFormed := by
  unfold MIDIPacketList.WellFormed; infer_instance

/-- The bytes a packet list carries: the first `length` data bytes of each packet, in
list order. -/
def MIDIPacketList.bytes (pktList : MIDIPacketList) : List Byte :=
  (pktList.packet.map fun pkt => pkt.data.take pkt.length).flatten

/-! ## The heap, the log and the driver -/

/-- The record `struct _SCMMIDIDestination`; a field that was never stored to is `none`. -/
structure SCMMIDIDestination where
  midiDestination : Option MIDIEndpointRef
  receivedMidi : Option CFMutableDataRef
deriving DecidableEq, Repr

/-- The record `struct _SCMMIDIInput`. -/
structure SCMMIDIInput where
  midiInputPort : Option MIDIPortRef
  receivedMidi : Option CFMutableDataRef
deriving DecidableEq, Repr

/-- The record `struct _SCMMIDIOutput`. -/
structure SCMMIDIOutput where
  midiOutputPort : Option MIDIPortRef
  dest : Option MIDIEndpointRef
deriving DecidableEq, Repr

/-- The calls that create, release or hand over something, as they are logged. -/
inductive Event where
  | MIDIClientCreate
  | MIDIDestinationCreate (name : String) (refCon : Nat)
  | MIDIEndpointDispose (endpoint : MIDIEndpointRef)
  | MIDIInputPortCreate (name : String) (refCon : Nat)
  | MIDIOutputPortCreate
  | MIDIPortConnectSource (port : MIDIPortRef) (source : MIDIEndpointRef)
  | MIDIPortDispose (port : MIDIPortRef)
  | MIDIReceived (source : MIDIEndpointRef) (pktList : MIDIPacketList)
  | MIDISend (port : MIDIPortRef) (dest : MIDIEndpointRef) (pktList : MIDIPacketList)
  | CFDataCreateMutable (data : CFMutableDataRef)
  | CFRelease (data : CFMutableDataRef)
  | CFAllocatorAllocate (addr : Nat)
  | CFAllocatorDeallocate (addr : Nat)
deriving DecidableEq, Repr

/-- Undefined behaviour of the C program. -/
inductive Fault where
  | stagingOverrun (index : Nat)
  | stagingUnwritten (index : Nat)
  | unwrittenField (addr : Nat)
  | danglingRecord (addr : Nat)
  | danglingData (data : CFMutableDataRef)
  | packetListOverrun
  | dataOverrun (index : Nat)
  | counterOverflow (value : Nat)
deriving DecidableEq, Repr

/-- Objects on the C heap, keyed by address. -/
abbrev Heap (α : Type) := List (Nat × α)

/-- The object stored at `addr`, if one is live there. -/
def Heap.get {α : Type} : Heap α → Nat → Option α
  | [], _ => none
  | (k, v) :: rest, addr => if k = addr then some v else Heap.get rest addr

/-- The heap in which the live object at `addr` is `v`. -/
def Heap.set {α : Type} : Heap α → Nat → α → Heap α
  | [], _, _ => []
  | (k, x) :: rest, addr, v =>
    if k = addr then (k, v) :: rest else (k, x) :: Heap.set rest addr v

/-- The heap without the object at `addr`. -/
def Heap.free {α : Type} : Heap α → Nat → Heap α
  | [], _ => []
  | (k, x) :: rest, addr => if k = addr then rest else (k, x) :: Heap.free rest addr

/-- A load through a record pointer. -/
def Heap.read {α : Type} (h : Heap α) (addr : Nat) : Except Fault α :=
  match h.get addr with
  | none => .error (.danglingRecord addr)
  | some v => .ok v

/-- A store through a record pointer. -/
def Heap.store {α : Type} (h : Heap α) (addr : Nat) (v : α) : Except Fault (Heap α) :=
  match h.get addr with
  | none => .error (.danglingRecord addr)
  | some _ => .ok (h.set addr v)

/-- The value of a record field; a field never stored to has no value. -/
def field {α : Type} (addr : Nat) : Option α → Except Fault α
  | none => .error (.unwrittenField addr)
  | some v => .ok v

/-- The state of the process: the static `_midiClient` (`0` until created), the endpoints
and ports the driver holds for this client, the heap, the allocation counter and the log. -/
structure World where
  midiClient : MIDIClientRef
  endpoints : List MIDIEndpointRef
  ports : List MIDIPortRef
  datas : Heap (List Byte)
  destinations : Heap SCMMIDIDestination
  inputs : Heap SCMMIDIInput
  outputs : Heap SCMMIDIOutput
  next : Nat
  log : List Event
deriving DecidableEq, Repr

/-- The answers of CoreMIDI. A creation call answers `some ref` with status `noErr` and
stores `ref` through its out-pointer; it answers `none` with an error status and stores
nothing. `sources` and `destinations` are the endpoints that `MIDIGetSource` and
`MIDIGetDestination` enumerate, each with its display name `kMIDIPropertyName`, of which
`CFStringGetCStringPtr` is taken to yield the characters (never `NULL`). -/
structure Driver where
  clientCreate : Option MIDIClientRef
  destinationCreate : MIDIClientRef → String → Option MIDIEndpointRef
  inputPortCreate : MIDIClientRef → String → Option MIDIPortRef
  outputPortCreate : MIDIClientRef → Option MIDIPortRef
  portConnectSource : MIDIPortRef → MIDIEndpointRef → OSStatus
  received : MIDIEndpointRef → MIDIPacketList → OSStatus
  send : MIDIPortRef → MIDIEndpointRef → MIDIPacketList → OSStatus
  sources : List (MIDIEndpointRef × String)
  destinations : List (MIDIEndpointRef × String)

/-- What a module function hands back to Python; `ioError msg` is the `NULL` return after
`PyErr_SetString(PyExc_IOError, msg)`. -/
inductive PyResult where
  | tuple (items : List Int)
  | inputCapsule (inputRef : Nat)
  | outputCapsule (outputRef : Nat)
  | pyNone
  | ioError (msg : String)
deriving DecidableEq, Repr

/-- The log with one more event. -/
def World.emit (w : World) (e : Event) : World := { w with log := w.log ++ [e] }

/-- The resources that are live in a state: the client, the endpoints, the ports, and the
addresses of the buffers and of the three kinds of record. -/
structure Live where
  client : MIDIClientRef
  endpoints : List MIDIEndpointRef
  ports : List MIDIPortRef
  datas : List Nat
  destinations : List Nat
  inputs : List Nat
  outputs : List Nat
deriving DecidableEq, Repr

/-- The live resources of a state. -/
def World.live (w : World) : Live :=
  { client := w.midiClient, endpoints := w.endpoints, ports := w.ports,
    datas := w.datas.map Prod.fst, destinations := w.destinations.map Prod.fst,
    inputs := w.inputs.map Prod.fst, outputs := w.outputs.map Prod.fst }

/-! ## Core Foundation primitives -/

/-- `CFDataAppendBytes(theData, bytes, length)`. -/
def CFDataAppendBytes (theData : CFMutableDataRef) (bytes : List Byte) (w : World) :
    Except Fault World :=
  match w.datas.get theData with
  | none => .error (.danglingData theData)
  | some old => .ok { w with datas := w.datas.set theData (old ++ bytes) }

/-- `CFDataDeleteBytes(theData, CFRangeMake(location, length))`. -/
def CFDataDeleteBytes (theData : CFMutableDataRef) (location length : Nat) (w : World) :
    Except Fault World :=
  match w.datas.get theData with
  | none => .error (.danglingData theData)
  | some old =>
    .ok { w with datas := w.datas.set theData (old.take location ++ old.drop (location + length)) }

/-- `CFDataCreateMutable(NULL, 0)`: a new empty buffer at the next free address. -/
def CFDataCreateMutable (w : World) : CFMutableDataRef × World :=
  (w.next, { w with datas := (w.next, []) :: w.datas, next := w.next + 1,
                    log := w.log ++ [.CFDataCreateMutable w.next] })

/-- `CFRelease(theData)` of a receive buffer (each buffer has a single owner). -/
def CFRelease (theData : CFMutableDataRef) (w : World) : Except Fault World :=
  match w.datas.get theData with
  | none => .error (.danglingData theData)
  | some _ => .ok { w with datas := w.datas.free theData, log := w.log ++ [.CFRelease theData] }

/-! ## The driver calls that change what the driver holds -/

/-- `MIDIEndpointDispose(endpoint)`: the status is ignored by every caller. -/
def MIDIEndpointDispose (endpoint : MIDIEndpointRef) (w : World) : World :=
  { w with endpoints := w.endpoints.erase endpoint,
           log := w.log ++ [.MIDIEndpointDispose endpoint] }

/-- `MIDIPortDispose(port)`: the status is ignored by every caller. -/
def MIDIPortDispose (port : MIDIPortRef) (w : World) : World :=
  { w with ports := w.ports.erase port, log := w.log ++ [.MIDIPortDispose port] }

/-- `SCMGlobalMIDIClient`: the client is created on first use and kept in `_midiClient`. -/
def SCMGlobalMIDIClient (d : Driver) (w : World) : MIDIClientRef × World :=
  if w.midiClient = 0 then
    match d.clientCreate with
    | some c => (c, { w with midiClient := c, log := w.log ++ [.MIDIClientCreate] })
    | none => (0, { w with log := w.log ++ [.MIDIClientCreate] })
  else (w.midiClient, w)

/-! ## The receive callbacks -/

/-- The loop of `SCMRecvMIDIProc`: the first argument counts the iterations left
(`numPackets - i`) and `pkt` walks the packets. -/
def SCMRecvMIDIProc.loop (destRef : Nat) : Nat → List MIDIPacket → World → Except Fault World
  | 0, _, w => .ok w
  | _ + 1, [], _ => .error .packetListOverrun
  | n + 1, pkt :: rest, w => do
    let record ← w.destinations.read destRef
    let receivedMidi ← field destRef record.receivedMidi
    if pkt.length ≤ pkt.data.length then
      let w1 ← CFDataAppendBytes receivedMidi (pkt.data.take pkt.length) w
      SCMRecvMIDIProc.loop destRef n rest w1
    else .error .packetListOverrun

/-- `SCMRecvMIDIProc(pktList, readProcRefCon, srcConnRefCon)` with `readProcRefCon = destRef`. -/
def SCMRecvMIDIProc (pktList : MIDIPacketList) (destRef : Nat) (w : World) : Except Fault World :=
  SCMRecvMIDIProc.loop destRef pktList.numPackets pktList.packet w

/-- The loop of `SCMRecvMIDIInputProc`. -/
def SCMRecvMIDIInputProc.loop (inputRef : Nat) : Nat → List MIDIPacket → World → Except Fault World
  | 0, _, w => .ok w
  | _ + 1, [], _ => .error .packetListOverrun
  | n + 1, pkt :: rest, w => do
    let record ← w.inputs.read inputRef
    let receivedMidi ← field inputRef record.receivedMidi
    if pkt.length ≤ pkt.data.length then
      let w1 ← CFDataAppendBytes receivedMidi (pkt.data.take pkt.length) w
      SCMRecvMIDIInputProc.loop inputRef n rest w1
    else .error .packetListOverrun

/-- `SCMRecvMIDIInputProc(pktList, readProcRefCon, srcConnRefCon)` with
`readProcRefCon = inputRef`. -/
def SCMRecvMIDIInputProc (pktList : MIDIPacketList) (inputRef : Nat) (w : World) :
    Except Fault World :=
  SCMRecvMIDIInputProc.loop inputRef pktList.numPackets pktList.packet w

/-! ## Receiving -/

/-- The largest value of the 32-bit `int`, `2^31 - 1`. -/
def INT_MAX : Nat := 2147483647

/-- The copy loop `for (i = 0; i < numBytes; i++, bytePtr++)` of the two receive
functions: `i` is the `int` counter, the list holds the bytes from `bytePtr` on, and the
answer holds the items stored into the tuple at the indices `i`, `i + 1`, ... The counter
is an `int` while `numBytes` is a 64-bit `CFIndex`: the increment of `i = INT_MAX` is a
signed overflow, a fault. -/
def fillTuple (numBytes : Nat) : Nat → List Byte → Except Fault (List Int)
  | i, [] => if i < numBytes then .error (.dataOverrun i) else .ok []
  | i, b :: rest =>
    if i < numBytes then
      if i < INT_MAX then
        match fillTuple numBytes (i + 1) rest with
        | .error f => .error f
        | .ok items => .ok (PyInt_FromLong b :: items)
      else .error (.counterOverflow i)
    else .ok []

/-- `SCMRecvMidi` (`recv_midi`); `destRef` is what `PyCapsule_GetPointer` yields, `none`
for `NULL`. -/
def SCMRecvMidi (destRef : Option Nat) (w : World) : Except Fault (PyResult × World) :=
  match destRef with
  | none => .ok (.ioError "Invalid MIDIDestination.", w)
  | some p => do
    let record ← w.destinations.read p
    let receivedMidi ← field p record.receivedMidi
    match w.datas.get receivedMidi with
    | none => .error (.danglingData receivedMidi)
    | some bytePtr =>
      let numBytes := bytePtr.length
      let receivedMidiT ← fillTuple numBytes 0 bytePtr
      let w1 ← CFDataDeleteBytes receivedMidi 0 numBytes w
      pure (.tuple receivedMidiT, w1)

/-- `SCMRecvMidiFromInput` (`recv_midi_from_input`). -/
def SCMRecvMidiFromInput (inputRef : Option Nat) (w : World) : Except Fault (PyResult × World) :=
  match inputRef with
  | none => .ok (.ioError "Invalid MIDIInput.", w)
  | some p => do
    let record ← w.inputs.read p
    let receivedMidi ← field p record.receivedMidi
    match w.datas.get receivedMidi with
    | none => .error (.danglingData receivedMidi)
    | some bytePtr =>
      let numBytes := bytePtr.length
      let receivedMidiT ← fillTuple numBytes 0 bytePtr
      let w1 ← CFDataDeleteBytes receivedMidi 0 numBytes w
      pure (.tuple receivedMidiT, w1)

/-! ## Sending -/

/-- The size of `Byte midiDataToSend[1024]`. -/
def stagingSize : Nat := 1024

/-- The size of `char pktListBuf[1024+100]`, also passed to `MIDIPacketListAdd`. -/
def pktListBufSize : Nat := 1024 + 100

/-- The copy loop `for (i = 0; i < nBytes; i++) midiDataToSend[i] = PyInt_AsLong(...)`:
`i` is the index, the list holds the items `PySequence_GetItem` has still to yield, and the
array cells never stored to are `none`. A store at an index outside the array is a fault. -/
def stageLoop : Nat → List Int → List (Option Byte) → Except Fault (List (Option Byte))
  | _, [], midiDataToSend => .ok midiDataToSend
  | i, midiByte :: rest, midiDataToSend =>
    if i < midiDataToSend.length then
      stageLoop (i + 1) rest (midiDataToSend.set i (some (toByte (PyInt_AsLong midiByte))))
    else .error (.stagingOverrun i)

/-- The bytes `data[i], data[i+1], ...` that a callee reads from the staging array, `n` of
them; the list is the array from index `i` on. -/
def readStaged : List (Option Byte) → Nat → Nat → Except Fault (List Byte)
  | _, _, 0 => .ok []
  | [], i, _ + 1 => .error (.stagingOverrun i)
  | none :: _, i, _ + 1 => .error (.stagingUnwritten i)
  | some b :: rest, i, n + 1 =>
    match readStaged rest (i + 1) n with
    | .error f => .error f
    | .ok bs => .ok (b :: bs)

/-- The bytes before the first packet: `UInt32 numPackets`. -/
def packetListHeaderSize : Nat := 4

/-- The bytes of a packet before its data: `MIDITimeStamp timeStamp; UInt16 length`. -/
def packetHeaderSize : Nat := 8 + 2

/-- The bytes a packet list occupies. -/
def MIDIPacketList.size (pktList : MIDIPacketList) : Nat :=
  packetListHeaderSize + (pktList.packet.map fun pkt => packetHeaderSize + pkt.length).sum

/-- `MIDIPacketListInit(pktList)`: the empty list. -/
def MIDIPacketListInit : MIDIPacketList := { numPackets := 0, packet := [] }

/-- Modelled from the spec: `MIDIPacketListAdd` belongs to CoreMIDI, not to the repository.
It appends one packet holding exactly the `nData` bytes at `data`, tagged with `time`, and
answers `NULL` (`none`) when the list with that packet would exceed `listSize` bytes; the
sizes are those of the packed CoreMIDI layout. -/
def MIDIPacketListAdd (pktList : MIDIPacketList) (listSize : Nat) (time : Nat) (nData : Nat)
    (data : List (Option Byte)) : Except Fault (Option MIDIPacketList) :=
  if pktList.size + packetHeaderSize + nData ≤ listSize then
    match readStaged data 0 nData with
    | .error f => .error f
    | .ok bytes =>
      .ok (some { numPackets := pktList.numPackets + 1,
                  packet := pktList.packet ++ [{ timeStamp := time, length := nData, data := bytes }] })
  else .ok none

/-- `SCMSendMidi` (`send_midi`); `now` is the value of `mach_absolute_time()`. -/
def SCMSendMidi (d : Driver) (now : Nat) (midiSource : MIDIEndpointRef) (midiData : List Int)
    (w : World) : Except Fault (PyResult × World) := do
  let nBytes := midiData.length
  let midiDataToSend ← stageLoop 0 midiData (List.replicate stagingSize none)
  let pkt ← MIDIPacketListAdd MIDIPacketListInit pktListBufSize now nBytes midiDataToSend
  match pkt with
  | none => pure (.ioError "Unable to send MIDI data.", w)
  | some pktList =>
    let w1 := w.emit (.MIDIReceived midiSource pktList)
    if d.received midiSource pktList ≠ 0 then pure (.ioError "Unable to send MIDI data.", w1)
    else pure (.pyNone, w1)

/-- `SCMSendMidiToOutput` (`send_midi_to_output`); `scmOutput` is what
`PyCapsule_GetPointer` yields, `none` for `NULL`. -/
def SCMSendMidiToOutput (d : Driver) (now : Nat) (scmOutput : Option Nat) (midiData : List Int)
    (w : World) : Except Fault (PyResult × World) :=
  match scmOutput with
  | none => .ok (.ioError "Invalid MIDIOutput.", w)
  | some outputRef => do
    let nBytes := midiData.length
    let midiDataToSend ← stageLoop 0 midiData (List.replicate stagingSize none)
    let pkt ← MIDIPacketListAdd MIDIPacketListInit pktListBufSize now nBytes midiDataToSend
    match pkt with
    | none => pure (.ioError "Unable to send MIDI data.", w)
    | some pktList => do
      let record ← w.outputs.read outputRef
      let midiOutputPort ← field outputRef record.midiOutputPort
      let dest ← field outputRef record.dest
      let w1 := w.emit (.MIDISend midiOutputPort dest pktList)
      if d.send midiOutputPort dest pktList ≠ 0 then
        pure (.ioError "Unable to send MIDI data.", w1)
      else pure (.pyNone, w1)

/-! ## Creation and disposal of the endpoint records -/

/-- `SCMMIDIDestinationCreate(midiDestinationName)`: the status of `MIDIDestinationCreate`
is not looked at. -/
def SCMMIDIDestinationCreate (d : Driver) (midiDestinationName : String) (w : World) :
    Except Fault (Nat × World) := do
  let destRef := w.next
  let w1 : World :=
    { w with destinations := (destRef, { midiDestination := none, receivedMidi := none })
               :: w.destinations,
             next := w.next + 1, log := w.log ++ [.CFAllocatorAllocate destRef] }
  let (data, w2) := CFDataCreateMutable w1
  let record ← w2.destinations.read destRef
  let destinations ← w2.destinations.store destRef { record with receivedMidi := some data }
  let w3 : World := { w2 with destinations := destinations }
  let (client, w4) := SCMGlobalMIDIClient d w3
  let w5 := w4.emit (.MIDIDestinationCreate midiDestinationName destRef)
  match d.destinationCreate client midiDestinationName with
  | none => pure (destRef, w5)
  | some endpoint =>
    let record ← w5.destinations.read destRef
    let destinations ← w5.destinations.store destRef { record with midiDestination := some endpoint }
    pure (destRef, { w5 with destinations := destinations, endpoints := endpoint :: w5.endpoints })

/-- `SCMMIDIDestinationDispose(destRef)`. -/
def SCMMIDIDestinationDispose (destRef : Nat) (w : World) : Except Fault World := do
  let record ← w.destinations.read destRef
  let midiDestination ← field destRef record.midiDestination
  let w1 := MIDIEndpointDispose midiDestination w
  let record ← w1.destinations.read destRef
  let receivedMidi ← field destRef record.receivedMidi
  let w2 ← CFRelease receivedMidi w1
  let _ ← w2.destinations.read destRef
  pure { w2 with destinations := w2.destinations.free destRef,
                 log := w2.log ++ [.CFAllocatorDeallocate destRef] }

/-- `SCMMIDIInputCreate(midiInputName, midiSource)`: the status of `MIDIInputPortCreate` is
not looked at; the answer is `none` for `NULL`. -/
def SCMMIDIInputCreate (d : Driver) (midiInputName : String) (midiSource : MIDIEndpointRef)
    (w : World) : Except Fault (Option Nat × World) := do
  let inputRef := w.next
  let w1 : World :=
    { w with inputs := (inputRef, { midiInputPort := none, receivedMidi := none }) :: w.inputs,
             next := w.next + 1, log := w.log ++ [.CFAllocatorAllocate inputRef] }
  let (data, w2) := CFDataCreateMutable w1
  let record ← w2.inputs.read inputRef
  let inputs ← w2.inputs.store inputRef { record with receivedMidi := some data }
  let w3 : World := { w2 with inputs := inputs }
  let (client, w4) := SCMGlobalMIDIClient d w3
  let w5 := w4.emit (.MIDIInputPortCreate midiInputName inputRef)
  let w6 ← (match d.inputPortCreate client midiInputName with
    | none => pure w5
    | some port => do
      let record ← w5.inputs.read inputRef
      let inputs ← w5.inputs.store inputRef { record with midiInputPort := some port }
      pure { w5 with inputs := inputs, ports := port :: w5.ports } : Except Fault World)
  let record ← w6.inputs.read inputRef
  let midiInputPort ← field inputRef record.midiInputPort
  let w7 := w6.emit (.MIDIPortConnectSource midiInputPort midiSource)
  let status := d.portConnectSource midiInputPort midiSource
  if status ≠ 0 then
    let record ← w7.inputs.read inputRef
    let midiInputPort ← field inputRef record.midiInputPort
    let w8 := MIDIPortDispose midiInputPort w7
    let record ← w8.inputs.read inputRef
    let receivedMidi ← field inputRef record.receivedMidi
    let w9 ← CFRelease receivedMidi w8
    let _ ← w9.inputs.read inputRef
    pure (none, { w9 with inputs := w9.inputs.free inputRef,
                          log := w9.log ++ [.CFAllocatorDeallocate inputRef] })
  else pure (some inputRef, w7)

/-- `SCMMIDIInputDispose(obj)` with `inputRef` the pointer of the capsule. -/
def SCMMIDIInputDispose (inputRef : Nat) (w : World) : Except Fault World := do
  let record ← w.inputs.read inputRef
  let midiInputPort ← field inputRef record.midiInputPort
  let w1 := MIDIPortDispose midiInputPort w
  let record ← w1.inputs.read inputRef
  let receivedMidi ← field inputRef record.receivedMidi
  let w2 ← CFRelease receivedMidi w1
  let _ ← w2.inputs.read inputRef
  pure { w2 with inputs := w2.inputs.free inputRef,
                 log := w2.log ++ [.CFAllocatorDeallocate inputRef] }

/-- `SCMMIDIOutputCreate(midiDest)`; the answer is `none` for `NULL`. -/
def SCMMIDIOutputCreate (d : Driver) (midiDest : MIDIEndpointRef) (w : World) :
    Except Fault (Option Nat × World) := do
  let outputRef := w.next
  let w1 : World :=
    { w with outputs := (outputRef, { midiOutputPort := none, dest := none }) :: w.outputs,
             next := w.next + 1, log := w.log ++ [.CFAllocatorAllocate outputRef] }
  let record ← w1.outputs.read outputRef
  let outputs ← w1.outputs.store outputRef { record with dest := some midiDest }
  let w2 : World := { w1 with outputs := outputs }
  let (client, w3) := SCMGlobalMIDIClient d w2
  let w4 := w3.emit .MIDIOutputPortCreate
  match d.outputPortCreate client with
  | some port =>
    let record ← w4.outputs.read outputRef
    let outputs ← w4.outputs.store outputRef { record with midiOutputPort := some port }
    pure (some outputRef, { w4 with outputs := outputs, ports := port :: w4.ports })
  | none =>
    let _ ← w4.outputs.read outputRef
    pure (none, { w4 with outputs := w4.outputs.free outputRef,
                          log := w4.log ++ [.CFAllocatorDeallocate outputRef] })

/-- `SCMMIDIOutputDispose(obj)` with `outputRef` the pointer of the capsule. -/
def SCMMIDIOutputDispose (outputRef : Nat) (w : World) : Except Fault World := do
  let record ← w.outputs.read outputRef
  let dest ← field outputRef record.dest
  let w1 := MIDIEndpointDispose dest w
  let record ← w1.outputs.read outputRef
  let midiOutputPort ← field outputRef record.midiOutputPort
  let w2 := MIDIPortDispose midiOutputPort w1
  let _ ← w2.outputs.read outputRef
  pure { w2 with outputs := w2.outputs.free outputRef,
                 log := w2.log ++ [.CFAllocatorDeallocate outputRef] }

/-! ## Lookup by name -/

/-- The C string that a `char*` to the first character of `s` denotes: the characters
before the first NUL. -/
def cString (s : String) : String :=
  String.mk (s.data.takeWhile fun c => c.toNat != 0)

/-- The call `strcmp(a, b)` on the buffers of `a` and `b`, as far as the callers look at
it: `0` when the two C strings are equal, nonzero otherwise. -/
def strcmp (a b : String) : Int :=
  if cString a = cString b then 0 else 1

/-- The loop of `SCMFindMIDIInput` over the sources still to visit. `midiSourceName` is the
buffer of the Python string (`PyString_AsString`), which may hold NUL characters; `str`
is the buffer of the display name. -/
def SCMFindMIDIInput.loop (d : Driver) (midiSourceName : String) :
    List (MIDIEndpointRef × String) → World → Except Fault (PyResult × World)
  | [], w => .ok (.pyNone, w)
  | (midiSource, str) :: rest, w =>
    if strcmp str midiSourceName = 0 then
      match SCMMIDIInputCreate d str midiSource w with
      | .error f => .error f
      | .ok (some inputRef, w1) => .ok (.inputCapsule inputRef, w1)
      | .ok (none, w1) => .ok (.ioError "Unable to create MIDIInput.", w1)
    else SCMFindMIDIInput.loop d midiSourceName rest w

/-- `SCMFindMIDIInput` (`find_input`). -/
def SCMFindMIDIInput (d : Driver) (midiSourceName : String) (w : World) :
    Except Fault (PyResult × World) :=
  SCMFindMIDIInput.loop d midiSourceName d.sources w

/-- The loop of `SCMFindMIDIOutput` over the destinations still to visit. -/
def SCMFindMIDIOutput.loop (d : Driver) (midiDestName : String) :
    List (MIDIEndpointRef × String) → World → Except Fault (PyResult × World)
  | [], w => .ok (.pyNone, w)
  | (midiDest, str) :: rest, w =>
    if strcmp str midiDestName = 0 then
      match SCMMIDIOutputCreate d midiDest w with
      | .error f => .error f
      | .ok (some outputRef, w1) => .ok (.outputCapsule outputRef, w1)
      | .ok (none, w1) => .ok (.ioError "Unable to create MIDIOutput.", w1)
    else SCMFindMIDIOutput.loop d midiDestName rest w

/-- `SCMFindMIDIOutput` (`find_output`). -/
def SCMFindMIDIOutput (d : Driver) (midiDestName : String) (w : World) :
    Except Fault (PyResult × World) :=
  SCMFindMIDIOutput.loop d midiDestName d.destinations w

/-! ## Traces over one receive buffer -/

/-- The state in which the buffer at `data` holds `bytes` and nothing else differs. -/
def World.withBuffer (w : World) (data : CFMutableDataRef) (bytes : List Byte) : World :=
  { w with datas := w.datas.set data bytes }

/-- One operation on the receive buffer of a destination: the driver runs the receive
callback on a packet list, or the consumer calls `recv_midi`. -/
inductive BufferOp where
  | append (pktList : MIDIPacketList)
  | drain
deriving DecidableEq, Repr

/-- The operations applied one after the other to the destination `destRef`; the answer
holds what each `recv_midi` returned, in order, and the final state. -/
def runBufferOps (destRef : Nat) : List BufferOp → World → Except Fault (List PyResult × World)
  | [], w => .ok ([], w)
  | .append pktList :: rest, w =>
    match SCMRecvMIDIProc pktList destRef w with
    | .error f => .error f
    | .ok w1 => runBufferOps destRef rest w1
  | .drain :: rest, w =>
    match SCMRecvMidi (some destRef) w with
    | .error f => .error f
    | .ok (r, w1) =>
      match runBufferOps destRef rest w1 with
      | .error f => .error f
      | .ok (rs, w2) => .ok (r :: rs, w2)

/-- The concatenation of all appended batches, in append order. -/
def appendedBytes : List BufferOp → List Byte
  | [] => []
  | .append pktList :: rest => pktList.bytes ++ appendedBytes rest
  | .drain :: rest => appendedBytes rest

/-- The tuple of Python integers that holds the bytes `S`. -/
def pyTuple (S : List Byte) : PyResult := .tuple (S.map PyInt_FromLong)

/-- The packet list that holds one packet with the bytes `B`, tagged `t`. -/
def singlePacket (t : Nat) (B : List Byte) : MIDIPacketList :=
  { numPackets := 1, packet := [{ timeStamp := t, length := B.length, data := B }] }

/-- What `send_midi` and `send_midi_to_output` return for the driver status `status`. -/
def sendResult (status : OSStatus) : PyResult :=
  if status ≠ 0 then .ioError "Unable to send MIDI data." else .pyNone

/-- The events of `SCMGlobalMIDIClient`: one `MIDIClientCreate` when `_midiClient` is still
`0`, none otherwise. -/
def clientEvents (w : World) : List Event :=
  if w.midiClient = 0 then [.MIDIClientCreate] else []

/-! ## Concrete states used to instantiate the theorems -/

/-- A process that holds one destination (record `100`, buffer `101`, endpoint `10`), one
input (record `102`, buffer `103`, port `20`) and one output (record `104`, port `21`,
destination endpoint `11`); both buffers hold the same three bytes. -/
def demoWorld : World :=
  { midiClient := 1, endpoints := [10], ports := [21, 20],
    datas := [(103, [0x90, 0x40, 0x7F]), (101, [0x90, 0x40, 0x7F])],
    destinations := [(100, { midiDestination := some 10, receivedMidi := some 101 })],
    inputs := [(102, { midiInputPort := some 20, receivedMidi := some 103 })],
    outputs := [(104, { midiOutputPort := some 21, dest := some 11 })],
    next := 105, log := [] }

/-- A packet list of two packets; the second has a longer data area than its `length`. -/
def demoPktList : MIDIPacketList :=
  { numPackets := 2,
    packet := [{ timeStamp := 7, length := 3, data := [0x80, 0x40, 0x00] },
               { timeStamp := 9, length := 2, data := [0xC0, 0x05, 0xFF] }] }

/-- A process that has not yet touched CoreMIDI: no client, nothing allocated. -/
def freshWorld : World :=
  { midiClient := 0, endpoints := [], ports := [], datas := [], destinations := [],
    inputs := [], outputs := [], next := 1, log := [] }

/-- A driver that creates the client, destinations and input ports, refuses to connect an
input port and to create an output port, accepts every packet list, and enumerates one
source and one destination, both named `IAC Driver Bus 1`. -/
def demoDriver : Driver :=
  { clientCreate := some 1,
    destinationCreate := fun _ _ => some 10,
    inputPortCreate := fun _ _ => some 20,
    outputPortCreate := fun _ => none,
    portConnectSource := fun _ _ => -50,
    received := fun _ _ => 0,
    send := fun _ _ _ => 0,
    sources := [(30, "IAC Driver Bus 1")],
    destinations := [(31, "IAC Driver Bus 1")] }

/-- The driver `demoDriver`, except that it connects input ports and creates output ports. -/
def acceptingDriver : Driver :=
  { demoDriver with outputPortCreate := fun _ => some 21, portConnectSource := fun _ _ => 0 }

/-- A Python string with an embedded NUL: the name of the enumerated endpoints, a NUL and
four more characters. -/
def nulName : String := "IAC Driver Bus 1\x00junk"

/-- The process of `demoWorld` after its two receive buffers have grown to `2^31` bytes. -/
def hugeWorld : World :=
  { demoWorld with
    datas := [(103, List.replicate 2147483648 0), (101, List.replicate 2147483648 0)] }

/-- A trace of `2^21` deliveries of one packet of 1024 bytes, then one `recv_midi`. -/
def hugeOps : List BufferOp :=
  List.replicate 2097152 (.append (singlePacket 0 (List.replicate 1024 0))) ++ [.drain]

/-- The state after `create_destination("Test Dest")` in a fresh process under `demoDriver`:
record `1`, empty buffer `2`, endpoint `10`. -/
def testDestWorld : World :=
  { midiClient := 1, endpoints := [10], ports := [], datas := [(2, [])],
    destinations := [(1, { midiDestination := some 10, receivedMidi := some 2 })],
    inputs := [], outputs := [], next := 3,
    log := [.CFAllocatorAllocate 1, .CFDataCreateMutable 2, .MIDIClientCreate,
            .MIDIDestinationCreate "Test Dest" 1] }

/-- A trace of appends and drains. -/
def demoOps : List BufferOp :=
  [.append demoPktList, .drain, .append (singlePacket 3 [0x90, 0x40, 0x7F]), .drain, .drain,
   .append demoPktList]

/-- The state after `find_input("IAC Driver Bus 1")` failed to connect in a fresh process
under `demoDriver`. -/
def afterFailedFindInput : World :=
  { freshWorld with
    midiClient := 1, next := 3,
    log := [.CFAllocatorAllocate 1, .CFDataCreateMutable 2, .MIDIClientCreate,
            .MIDIInputPortCreate "IAC Driver Bus 1" 1, .MIDIPortConnectSource 20 30,
            .MIDIPortDispose 20, .CFRelease 2, .CFAllocatorDeallocate 1] }

/-- The state after `find_output("IAC Driver Bus 1")` failed to create its port in a fresh
process under `demoDriver`. -/
def afterFailedFindOutput : World :=
  { freshWorld with
    midiClient := 1, next := 2,
    log := [.CFAllocatorAllocate 1, .MIDIClientCreate, .MIDIOutputPortCreate,
            .CFAllocatorDeallocate 1] }

/-- The state after `find_input(nulName)` in a fresh process under `acceptingDriver`. -/
def afterNulFindInput : World :=
  { freshWorld with
    midiClient := 1, ports := [20], datas := [(2, [])],
    inputs := [(1, { midiInputPort := some 20, receivedMidi := some 2 })], next := 3,
    log := [.CFAllocatorAllocate 1, .CFDataCreateMutable 2, .MIDIClientCreate,
            .MIDIInputPortCreate "IAC Driver Bus 1" 1, .MIDIPortConnectSource 20 30] }

/-- The state after `find_output(nulName)` in a fresh process under `acceptingDriver`. -/
def afterNulFindOutput : World :=
  { freshWorld with
    midiClient := 1, ports := [21],
    outputs := [(1, { midiOutputPort := some 21, dest := some 31 })], next := 2,
    log := [.CFAllocatorAllocate 1, .MIDIClientCreate, .MIDIOutputPortCreate] }

/-! ## Heap lemmas -/

theorem Heap.get_set_self {α : Type} (h : Heap α) (a : Nat) (u v : α)
    (hlive : h.get a = some u) : (h.set a v).get a = some v := by
  induction h with
  | nil => simp [Heap.get] at hlive
  | cons e rest ih =>
    obtain ⟨k, x⟩ := e
    by_cases hk : k = a
    · simp [Heap.set, Heap.get, hk]
    · simp only [Heap.get, hk, if_false] at hlive
      simp [Heap.set, Heap.get, hk, ih hlive]

theorem Heap.set_set {α : Type} (h : Heap α) (a : Nat) (u v : α) :
    (h.set a u).set a v = h.set a v := by
  induction h with
  | nil => rfl
  | cons e rest ih =>
    obtain ⟨k, x⟩ := e
    by_cases hk : k = a
    · simp [Heap.set, hk]
    · simp [Heap.set, hk, ih]

theorem Heap.set_same {α : Type} (h : Heap α) (a : Nat) (v : α)
    (hlive : h.get a = some v) : h.set a v = h := by
  induction h with
  | nil => rfl
  | cons e rest ih =>
    obtain ⟨k, x⟩ := e
    by_cases hk : k = a
    · simp only [Heap.get, hk, if_true, Option.some.injEq] at hlive
      simp [Heap.set, hk, hlive]
    · simp only [Heap.get, hk, if_false] at hlive
      simp [Heap.set, hk, ih hlive]

/-! ## The receive callbacks -/

theorem SCMRecvMIDIProc_loop_ok (destRef data : Nat) (record : SCMMIDIDestination)
    (hfield : record.receivedMidi = some data) :
    ∀ (pkts : List MIDIPacket) (w : World) (S : List Byte),
      (∀ pkt ∈ pkts, pkt.length ≤ pkt.data.length) →
      w.destinations.get destRef = some record →
      w.datas.get data = some S →
      SCMRecvMIDIProc.loop destRef pkts.length pkts w
        = .ok { w with
            datas := w.datas.set data
              (S ++ (pkts.map fun pkt => pkt.data.take pkt.length).flatten) } := by
  intro pkts
  induction pkts with
  | nil =>
    intro w S _ _ hbuf
    simp [SCMRecvMIDIProc.loop, Heap.set_same _ _ _ hbuf]
  | cons pkt rest ih =>
    intro w S hwf hrec hbuf
    have hpkt : pkt.length ≤ pkt.data.length := hwf pkt (List.mem_cons_self _ _)
    have hrest : ∀ q ∈ rest, q.length ≤ q.data.length :=
      fun q hq => hwf q (List.mem_cons_of_mem _ hq)
    have step := ih { w with datas := w.datas.set data (S ++ pkt.data.take pkt.length) }
      (S ++ pkt.data.take pkt.length) hrest hrec (Heap.get_set_self _ _ _ _ hbuf)
    simp only [List.length_cons, SCMRecvMIDIProc.loop, Heap.read, hrec, field, hfield,
      CFDataAppendBytes, hbuf, hpkt, if_true, bind, Except.bind]
    rw [step]
    simp [Heap.set_set, List.append_assoc]

theorem SCMRecvMIDIInputProc_loop_ok (inputRef data : Nat) (record : SCMMIDIInput)
    (hfield : record.receivedMidi = some data) :
    ∀ (pkts : List MIDIPacket) (w : World) (S : List Byte),
      (∀ pkt ∈ pkts, pkt.length ≤ pkt.data.length) →
      w.inputs.get inputRef = some record →
      w.datas.get data = some S →
      SCMRecvMIDIInputProc.loop inputRef pkts.length pkts w
        = .ok { w with
            datas := w.datas.set data
              (S ++ (pkts.map fun pkt => pkt.data.take pkt.length).flatten) } := by
  intro pkts
  induction pkts with
  | nil =>
    intro w S _ _ hbuf
    simp [SCMRecvMIDIInputProc.loop, Heap.set_same _ _ _ hbuf]
  | cons pkt rest ih =>
    intro w S hwf hrec hbuf
    have hpkt : pkt.length ≤ pkt.data.length := hwf pkt (List.mem_cons_self _ _)
    have hrest : ∀ q ∈ rest, q.length ≤ q.data.length :=
      fun q hq => hwf q (List.mem_cons_of_mem _ hq)
    have step := ih { w with datas := w.datas.set data (S ++ pkt.data.take pkt.length) }
      (S ++ pkt.data.take pkt.length) hrest hrec (Heap.get_set_self _ _ _ _ hbuf)
    simp only [List.length_cons, SCMRecvMIDIInputProc.loop, Heap.read, hrec, field, hfield,
      CFDataAppendBytes, hbuf, hpkt, if_true, bind, Except.bind]
    rw [step]
    simp [Heap.set_set, List.append_assoc]

theorem SCMRecvMIDIProc_ok (pktList : MIDIPacketList) (w : World) (destRef data : Nat)
    (S : List Byte) (record : SCMMIDIDestination) (hwf : pktList.WellFormed)
    (hbuf : w.datas.get data = some S) (hrec : w.destinations.get destRef = some record)
    (hfield : record.receivedMidi = some data) :
    SCMRecvMIDIProc pktList destRef w = .ok (w.withBuffer data (S ++ pktList.bytes)) := by
  unfold SCMRecvMIDIProc
  rw [hwf.1, SCMRecvMIDIProc_loop_ok destRef data record hfield _ w S hwf.2 hrec hbuf]
  rfl

theorem SCMRecvMIDIInputProc_ok (pktList : MIDIPacketList) (w : World) (inputRef data : Nat)
    (S : List Byte) (record : SCMMIDIInput) (hwf : pktList.WellFormed)
    (hbuf : w.datas.get data = some S) (hrec : w.inputs.get inputRef = some record)
    (hfield : record.receivedMidi = some data) :
    SCMRecvMIDIInputProc pktList inputRef w = .ok (w.withBuffer data (S ++ pktList.bytes)) := by
  unfold SCMRecvMIDIInputProc
  rw [hwf.1, SCMRecvMIDIInputProc_loop_ok inputRef data record hfield _ w S hwf.2 hrec hbuf]
  rfl

theorem fillTuple_ok (numBytes : Nat) (hbound : numBytes ≤ INT_MAX) :
    ∀ (rest : List Byte) (i : Nat), i + rest.length = numBytes →
      fillTuple numBytes i rest = .ok (rest.map PyInt_FromLong) := by
  intro rest
  induction rest with
  | nil =>
    intro i h
    have hi : ¬ i < numBytes := by simp at h; omega
    simp [fillTuple, hi]
  | cons b t ih =>
    intro i h
    simp only [List.length_cons] at h
    have hi : i < numBytes := by omega
    have hmax : i < INT_MAX := by omega
    simp [fillTuple, hi, hmax, ih (i + 1) (by omega)]

theorem fillTuple_overflow (numBytes : Nat) (hbound : INT_MAX < numBytes) :
    ∀ (rest : List Byte) (i : Nat), i + rest.length = numBytes → i ≤ INT_MAX →
      fillTuple numBytes i rest = .error (.counterOverflow INT_MAX) := by
  intro rest
  induction rest with
  | nil => intro i h hi; simp at h; omega
  | cons b t ih =>
    intro i h hle
    simp only [List.length_cons] at h
    have hi : i < numBytes := by omega
    by_cases hmax : i < INT_MAX
    · simp [fillTuple, hi, hmax, ih (i + 1) (by omega) (by omega)]
    · have heq : i = INT_MAX := by omega
      subst heq
      simp [fillTuple, hbound]

theorem fillTuple_all (S : List Byte) (hbound : S.length ≤ INT_MAX) :
    fillTuple S.length 0 S = .ok (S.map PyInt_FromLong) :=
  fillTuple_ok S.length hbound S 0 (by simp)

theorem SCMRecvMidi_ok (w : World) (destRef data : Nat) (S : List Byte)
    (record : SCMMIDIDestination) (hbound : S.length ≤ INT_MAX)
    (hbuf : w.datas.get data = some S)
    (hrec : w.destinations.get destRef = some record)
    (hfield : record.receivedMidi = some data) :
    SCMRecvMidi (some destRef) w = .ok (pyTuple S, w.withBuffer data []) := by
  simp [SCMRecvMidi, Heap.read, hrec, field, hfield, hbuf, CFDataDeleteBytes,
    fillTuple_all S hbound, bind, Except.bind, pure, Except.pure, pyTuple, World.withBuffer]

theorem SCMRecvMidi_overflow (w : World) (destRef data : Nat) (S : List Byte)
    (record : SCMMIDIDestination) (hbound : INT_MAX < S.length)
    (hbuf : w.datas.get data = some S)
    (hrec : w.destinations.get destRef = some record)
    (hfield : record.receivedMidi = some data) :
    SCMRecvMidi (some destRef) w = .error (.counterOverflow INT_MAX) := by
  simp [SCMRecvMidi, Heap.read, hrec, field, hfield, hbuf,
    fillTuple_overflow S.length hbound S 0 (by simp) (by omega), bind, Except.bind]

theorem SCMRecvMidiFromInput_ok (w : World) (inputRef data : Nat) (S : List Byte)
    (record : SCMMIDIInput) (hbound : S.length ≤ INT_MAX)
    (hbuf : w.datas.get data = some S)
    (hrec : w.inputs.get inputRef = some record)
    (hfield : record.receivedMidi = some data) :
    SCMRecvMidiFromInput (some inputRef) w = .ok (pyTuple S, w.withBuffer data []) := by
  simp [SCMRecvMidiFromInput, Heap.read, hrec, field, hfield, hbuf, CFDataDeleteBytes,
    fillTuple_all S hbound, bind, Except.bind, pure, Except.pure, pyTuple, World.withBuffer]

theorem SCMRecvMidiFromInput_overflow (w : World) (inputRef data : Nat) (S : List Byte)
    (record : SCMMIDIInput) (hbound : INT_MAX < S.length)
    (hbuf : w.datas.get data = some S)
    (hrec : w.inputs.get inputRef = some record)
    (hfield : record.receivedMidi = some data) :
    SCMRecvMidiFromInput (some inputRef) w = .error (.counterOverflow INT_MAX) := by
  simp [SCMRecvMidiFromInput, Heap.read, hrec, field, hfield, hbuf,
    fillTuple_overflow S.length hbound S 0 (by simp) (by omega), bind, Except.bind]

theorem World.withBuffer_get (w : World) (data : Nat) (S T : List Byte)
    (hbuf : w.datas.get data = some S) : (w.withBuffer data T).datas.get data = some T :=
  Heap.get_set_self _ _ _ _ hbuf

theorem World.withBuffer_withBuffer (w : World) (data : Nat) (S T : List Byte) :
    (w.withBuffer data S).withBuffer data T = w.withBuffer data T := by
  simp [World.withBuffer, Heap.set_set]

/-- C5. Decode appends verbatim in list order: when the receive callback of a destination
(`SCMRecvMIDIProc`) or of an input (`SCMRecvMIDIInputProc`) runs on a packet list whose
`numPackets` packets are present, over a buffer that holds `S`, it returns normally and the
state differs only in that buffer, which then holds `S` followed by the first `length` data
bytes of each packet, in list order. -/
theorem recv_callbacks_append_packet_bytes (pktList : MIDIPacketList) (w : World)
    (ref data : Nat) (S : List Byte) (hwf : pktList.WellFormed)
    (hbuf : w.datas.get data = some S) :
    (∀ record : SCMMIDIDestination, w.destinations.get ref = some record →
        record.receivedMidi = some data →
        SCMRecvMIDIProc pktList ref w = .ok (w.withBuffer data (S ++ pktList.bytes)) ∧
        (w.withBuffer data (S ++ pktList.bytes)).datas.get data = some (S ++ pktList.bytes)) ∧
    (∀ record : SCMMIDIInput, w.inputs.get ref = some record →
        record.receivedMidi = some data →
        SCMRecvMIDIInputProc pktList ref w = .ok (w.withBuffer data (S ++ pktList.bytes)) ∧
        (w.withBuffer data (S ++ pktList.bytes)).datas.get data = some (S ++ pktList.bytes)) :=
  ⟨fun record hrec hfield =>
      ⟨SCMRecvMIDIProc_ok pktList w ref data S record hwf hbuf hrec hfield,
        World.withBuffer_get w data S _ hbuf⟩,
    fun record hrec hfield =>
      ⟨SCMRecvMIDIInputProc_ok pktList w ref data S record hwf hbuf hrec hfield,
        World.withBuffer_get w data S _ hbuf⟩⟩

/-- Drain below the counter bound: for a destination or input record that is live and
whose receive buffer holds `S` of at most `INT_MAX` bytes (possibly none),
`recv_midi` / `recv_midi_from_input` returns normally the tuple of exactly the bytes `S` in
buffer order, leaves the buffer empty and everything else untouched, and a second call
right after returns the empty tuple. -/
theorem recv_returns_buffer_and_empties_it (w : World) (ref data : Nat) (S : List Byte)
    (hbound : S.length ≤ INT_MAX) (hbuf : w.datas.get data = some S) :
    (∀ record : SCMMIDIDestination, w.destinations.get ref = some record →
        record.receivedMidi = some data →
        SCMRecvMidi (some ref) w = .ok (.tuple (S.map PyInt_FromLong), w.withBuffer data []) ∧
        (w.withBuffer data []).datas.get data = some [] ∧
        SCMRecvMidi (some ref) (w.withBuffer data []) = .ok (.tuple [], w.withBuffer data [])) ∧
    (∀ record : SCMMIDIInput, w.inputs.get ref = some record →
        record.receivedMidi = some data →
        SCMRecvMidiFromInput (some ref) w
          = .ok (.tuple (S.map PyInt_FromLong), w.withBuffer data []) ∧
        (w.withBuffer data []).datas.get data = some [] ∧
        SCMRecvMidiFromInput (some ref) (w.withBuffer data [])
          = .ok (.tuple [], w.withBuffer data [])) := by
  have hempty := World.withBuffer_get w data S [] hbuf
  refine ⟨fun record hrec hfield => ⟨?_, hempty, ?_⟩, fun record hrec hfield => ⟨?_, hempty, ?_⟩⟩
  · exact SCMRecvMidi_ok w ref data S record hbound hbuf hrec hfield
  · have h := SCMRecvMidi_ok (w.withBuffer data []) ref data [] record (by simp) hempty hrec
      hfield
    rw [World.withBuffer_withBuffer] at h
    exact h
  · exact SCMRecvMidiFromInput_ok w ref data S record hbound hbuf hrec hfield
  · have h := SCMRecvMidiFromInput_ok (w.withBuffer data []) ref data [] record (by simp) hempty
      hrec hfield
    rw [World.withBuffer_withBuffer] at h
    exact h

theorem runBufferOps_ok (destRef data : Nat) (record : SCMMIDIDestination)
    (hfield : record.receivedMidi = some data) :
    ∀ (ops : List BufferOp) (w : World) (S : List Byte),
      (∀ pktList, BufferOp.append pktList ∈ ops → pktList.WellFormed) →
      S.length + (appendedBytes ops).length ≤ INT_MAX →
      w.destinations.get destRef = some record →
      w.datas.get data = some S →
      ∃ (drains : List (List Byte)) (rest : List Byte) (w1 : World),
        runBufferOps destRef ops w = .ok (drains.map pyTuple, w1) ∧
        w1.datas.get data = some rest ∧
        drains.flatten ++ rest = S ++ appendedBytes ops := by
  intro ops
  induction ops with
  | nil =>
    intro w S _ _ _ hbuf
    exact ⟨[], S, w, rfl, hbuf, by simp [appendedBytes]⟩
  | cons op tail ih =>
    intro w S hwf hbound hrec hbuf
    have htail : ∀ pktList, BufferOp.append pktList ∈ tail → pktList.WellFormed :=
      fun pktList h => hwf pktList (List.mem_cons_of_mem _ h)
    cases op with
    | append pktList =>
      have hpl : pktList.WellFormed := hwf pktList (List.mem_cons_self _ _)
      obtain ⟨drains, rest, w1, hrun, hrest, hcat⟩ :=
        ih (w.withBuffer data (S ++ pktList.bytes)) (S ++ pktList.bytes) htail
          (by simp only [appendedBytes, List.length_append] at hbound ⊢; omega) hrec
          (World.withBuffer_get w data S _ hbuf)
      refine ⟨drains, rest, w1, ?_, hrest, ?_⟩
      · simp [runBufferOps, SCMRecvMIDIProc_ok pktList w destRef data S record hpl hbuf hrec hfield,
          hrun]
      · simp [hcat, appendedBytes, List.append_assoc]
    | drain =>
      obtain ⟨drains, rest, w1, hrun, hrest, hcat⟩ :=
        ih (w.withBuffer data []) [] htail
          (by simp only [appendedBytes, List.length_nil] at hbound ⊢; omega) hrec
          (World.withBuffer_get w data S _ hbuf)
      refine ⟨S :: drains, rest, w1, ?_, hrest, ?_⟩
      · simp [runBufferOps,
          SCMRecvMidi_ok w destRef data S record (by omega) hbuf hrec hfield, hrun]
      · simp only [List.flatten_cons, List.append_assoc, hcat, appendedBytes, List.nil_append]

/-- No loss, no duplication below the counter bound: for every finite sequence of appends
(the receive callback run on a delivered packet list) and drains (`recv_midi`) that
appends at most `INT_MAX` bytes in all to a destination whose buffer is empty at the
start, the run returns normally, every drain returns a tuple, and the bytes of the drain
results concatenated in drain order, followed by the bytes left in the buffer, are the
appended batches concatenated in append order. -/
theorem drains_partition_appended_bytes (ops : List BufferOp) (w : World)
    (destRef data : Nat) (record : SCMMIDIDestination)
    (hwf : ∀ pktList, BufferOp.append pktList ∈ ops → pktList.WellFormed)
    (hbound : (appendedBytes ops).length ≤ INT_MAX)
    (hrec : w.destinations.get destRef = some record)
    (hfield : record.receivedMidi = some data)
    (hbuf : w.datas.get data = some []) :
    ∃ (drains : List (List Byte)) (rest : List Byte) (w1 : World),
      runBufferOps destRef ops w = .ok (drains.map pyTuple, w1) ∧
      w1.datas.get data = some rest ∧
      drains.flatten ++ rest = appendedBytes ops := by
  obtain ⟨drains, rest, w1, hrun, hrest, hcat⟩ :=
    runBufferOps_ok destRef data record hfield ops w [] hwf (by simpa using hbound) hrec hbuf
  exact ⟨drains, rest, w1, hrun, hrest, by simpa using hcat⟩

/-! ## Sending -/

theorem toByte_PyInt_FromLong (b : Byte) : toByte (PyInt_AsLong (PyInt_FromLong b)) = b := by
  have hb := b.isLt
  have hfit : PyInt_AsLong (PyInt_FromLong b) = (b.val : Int) := by
    unfold PyInt_AsLong PyInt_FromLong
    rw [if_pos]
    constructor <;> omega
  rw [hfit]
  apply Fin.ext
  simp only [toByte, Fin.ofNat, Fin.val_mk]
  omega

theorem take_succ_set {α : Type} (v : α) :
    ∀ (l : List α) (i : Nat), i < l.length → (l.set i v).take (i + 1) = l.take i ++ [v] := by
  intro l
  induction l with
  | nil => intro i h; simp at h
  | cons a t ih =>
    intro i h
    cases i with
    | zero => simp
    | succ j =>
      have hj : j < t.length := by simpa using h
      simp [ih j hj]

theorem stageLoop_ok :
    ∀ (midiData : List Int) (i : Nat) (arr : List (Option Byte)),
      i + midiData.length ≤ arr.length →
      stageLoop i midiData arr
        = .ok (arr.take i ++ midiData.map (fun x => some (toByte (PyInt_AsLong x)))
                ++ arr.drop (i + midiData.length)) := by
  intro midiData
  induction midiData with
  | nil => intro i arr _; simp [stageLoop]
  | cons x rest ih =>
    intro i arr h
    have hi : i < arr.length := by simp only [List.length_cons] at h; omega
    have hlen : i + 1 + rest.length ≤ (arr.set i (some (toByte (PyInt_AsLong x)))).length := by
      simp only [List.length_cons] at h; simp only [List.length_set]; omega
    simp only [stageLoop, hi, if_true]
    rw [ih (i + 1) _ hlen, take_succ_set _ arr i hi,
      List.drop_set_of_lt _ _ (by omega : i < i + 1 + rest.length)]
    simp [List.append_assoc, Nat.add_assoc, Nat.add_comm 1 rest.length]

theorem stageLoop_overrun :
    ∀ (midiData : List Int) (i : Nat) (arr : List (Option Byte)),
      i ≤ arr.length → arr.length < i + midiData.length →
      stageLoop i midiData arr = .error (.stagingOverrun arr.length) := by
  intro midiData
  induction midiData with
  | nil => intro i arr h1 h2; simp at h2; omega
  | cons x rest ih =>
    intro i arr h1 h2
    by_cases hi : i < arr.length
    · simp only [stageLoop, hi, if_true]
      have h := ih (i + 1) (arr.set i (some (toByte (PyInt_AsLong x))))
        (by simp only [List.length_set]; omega)
        (by simp only [List.length_set, List.length_cons] at h2 ⊢; omega)
      simpa using h
    · have : i = arr.length := by omega
      simp [stageLoop, this]

theorem readStaged_ok :
    ∀ (bytes : List Byte) (i : Nat) (rest : List (Option Byte)),
      readStaged (bytes.map some ++ rest) i bytes.length = .ok bytes := by
  intro bytes
  induction bytes with
  | nil => intro i rest; simp [readStaged]
  | cons b t ih => intro i rest; simp [readStaged, ih]

theorem stage_bytes (B : List Byte) (hlen : B.length ≤ stagingSize) :
    stageLoop 0 (B.map PyInt_FromLong) (List.replicate stagingSize none)
      = .ok (B.map some ++ List.replicate (stagingSize - B.length) none) := by
  rw [stageLoop_ok _ 0 _ (by simpa using hlen)]
  have hmap : (B.map PyInt_FromLong).map (fun x => some (toByte (PyInt_AsLong x)))
      = B.map some := by
    rw [List.map_map]
    apply List.map_congr_left
    intro b _
    simp [toByte_PyInt_FromLong]
  simp [hmap]

theorem MIDIPacketListAdd_single (now : Nat) (B : List Byte) (rest : List (Option Byte))
    (hlen : B.length ≤ stagingSize) :
    MIDIPacketListAdd MIDIPacketListInit pktListBufSize now B.length (B.map some ++ rest)
      = .ok (some (singlePacket now B)) := by
  have hroom : MIDIPacketListInit.size + packetHeaderSize + B.length ≤ pktListBufSize := by
    simp only [MIDIPacketList.size, MIDIPacketListInit, packetListHeaderSize, packetHeaderSize,
      pktListBufSize, List.map_nil, List.sum_nil]
    simp only [stagingSize] at hlen
    omega
  simp only [MIDIPacketListAdd, hroom, if_true, readStaged_ok]
  simp [MIDIPacketListInit, singlePacket]

theorem SCMSendMidi_ok (d : Driver) (now : Nat) (midiSource : MIDIEndpointRef) (B : List Byte)
    (w : World) (hlen : B.length ≤ stagingSize) :
    SCMSendMidi d now midiSource (B.map PyInt_FromLong) w
      = .ok (sendResult (d.received midiSource (singlePacket now B)),
             w.emit (.MIDIReceived midiSource (singlePacket now B))) := by
  simp only [SCMSendMidi, stage_bytes B hlen, List.length_map, bind, Except.bind,
    MIDIPacketListAdd_single now B _ hlen, sendResult]
  split <;> rfl

theorem SCMSendMidi_overrun (d : Driver) (now : Nat) (midiSource : MIDIEndpointRef)
    (midiData : List Int) (w : World) (hlen : stagingSize < midiData.length) :
    SCMSendMidi d now midiSource midiData w = .error (.stagingOverrun stagingSize) := by
  have h := stageLoop_overrun midiData 0 (List.replicate stagingSize none) (by simp)
    (by simpa using hlen)
  simp only [List.length_replicate] at h
  simp [SCMSendMidi, h, bind, Except.bind]

theorem SCMSendMidiToOutput_overrun (d : Driver) (now : Nat) (outputRef : Nat)
    (midiData : List Int) (w : World) (hlen : stagingSize < midiData.length) :
    SCMSendMidiToOutput d now (some outputRef) midiData w
      = .error (.stagingOverrun stagingSize) := by
  have h := stageLoop_overrun midiData 0 (List.replicate stagingSize none) (by simp)
    (by simpa using hlen)
  simp only [List.length_replicate] at h
  simp [SCMSendMidiToOutput, h, bind, Except.bind]

theorem singlePacket_wellFormed (t : Nat) (B : List Byte) : (singlePacket t B).WellFormed := by
  simp [MIDIPacketList.WellFormed, singlePacket]

theorem singlePacket_bytes (t : Nat) (B : List Byte) : (singlePacket t B).bytes = B := by
  simp [MIDIPacketList.bytes, singlePacket]

/-- C1. Round trip: for every byte sequence `B` of at most 1024 bytes (the staging array
`midiDataToSend`; such a packet fits the 1124-byte packet list) and every time stamp,
`send_midi` hands the driver the packet list of one packet holding `B`; the receive
callback run on that packet list for a destination whose buffer is empty leaves `B` in the
buffer, and `recv_midi` then returns the tuple of exactly the bytes of `B`. -/
theorem send_then_receive_round_trip (d : Driver) (now : Nat) (midiSource : MIDIEndpointRef)
    (B : List Byte) (w : World) (destRef data : Nat) (record : SCMMIDIDestination)
    (hlen : B.length ≤ stagingSize)
    (hrec : w.destinations.get destRef = some record)
    (hfield : record.receivedMidi = some data)
    (hbuf : w.datas.get data = some []) :
    SCMSendMidi d now midiSource (B.map PyInt_FromLong) w
      = .ok (sendResult (d.received midiSource (singlePacket now B)),
             w.emit (.MIDIReceived midiSource (singlePacket now B))) ∧
    SCMRecvMIDIProc (singlePacket now B) destRef
        (w.emit (.MIDIReceived midiSource (singlePacket now B)))
      = .ok ((w.emit (.MIDIReceived midiSource (singlePacket now B))).withBuffer data B) ∧
    SCMRecvMidi (some destRef)
        ((w.emit (.MIDIReceived midiSource (singlePacket now B))).withBuffer data B)
      = .ok (.tuple (B.map PyInt_FromLong),
             (w.emit (.MIDIReceived midiSource (singlePacket now B))).withBuffer data []) := by
  refine ⟨SCMSendMidi_ok d now midiSource B w hlen, ?_, ?_⟩
  · have h := SCMRecvMIDIProc_ok (singlePacket now B)
      (w.emit (.MIDIReceived midiSource (singlePacket now B))) destRef data [] record
      (singlePacket_wellFormed now B) hbuf hrec hfield
    simpa [singlePacket_bytes] using h
  · have h := SCMRecvMidi_ok
      ((w.emit (.MIDIReceived midiSource (singlePacket now B))).withBuffer data B)
      destRef data B record (by simp only [stagingSize, INT_MAX] at hlen ⊢; omega)
      (World.withBuffer_get _ data [] B hbuf) hrec hfield
    rw [World.withBuffer_withBuffer] at h
    exact h

/-- C2, the code at the failing input: with a payload of 2000 bytes the copy loop of
`send_midi` and of `send_midi_to_output` stores to `midiDataToSend[1024]`, one past the
end of the 1024-byte staging array, before `MIDIPacketListAdd` is reached; the run ends in
undefined behaviour and not in the size error. -/
theorem oversized_send_overruns_staging_array (d : Driver) (now : Nat)
    (midiSource : MIDIEndpointRef) (outputRef : Nat) (w : World) :
    SCMSendMidi d now midiSource (List.replicate 2000 0) w = .error (.stagingOverrun 1024) ∧
    SCMSendMidiToOutput d now (some outputRef) (List.replicate 2000 0) w
      = .error (.stagingOverrun 1024) :=
  ⟨SCMSendMidi_overrun d now midiSource _ w
      (by simp only [List.length_replicate, stagingSize]; omega),
    SCMSendMidiToOutput_overrun d now outputRef _ w
      (by simp only [List.length_replicate, stagingSize]; omega)⟩

/-! ## Disposal -/

theorem SCMMIDIDestinationDispose_ok (w : World) (destRef midiDestination data : Nat)
    (bytes : List Byte) (hbuf : w.datas.get data = some bytes)
    (hrec : w.destinations.get destRef
      = some { midiDestination := some midiDestination, receivedMidi := some data }) :
    SCMMIDIDestinationDispose destRef w
      = .ok { w with
          endpoints := w.endpoints.erase midiDestination,
          datas := w.datas.free data,
          destinations := w.destinations.free destRef,
          log := w.log ++ [.MIDIEndpointDispose midiDestination, .CFRelease data,
                           .CFAllocatorDeallocate destRef] } := by
  simp [SCMMIDIDestinationDispose, Heap.read, hrec, field, MIDIEndpointDispose, CFRelease, hbuf,
    bind, Except.bind, pure, Except.pure]

theorem SCMMIDIInputDispose_ok (w : World) (inputRef midiInputPort data : Nat)
    (bytes : List Byte) (hbuf : w.datas.get data = some bytes)
    (hrec : w.inputs.get inputRef
      = some { midiInputPort := some midiInputPort, receivedMidi := some data }) :
    SCMMIDIInputDispose inputRef w
      = .ok { w with
          ports := w.ports.erase midiInputPort,
          datas := w.datas.free data,
          inputs := w.inputs.free inputRef,
          log := w.log ++ [.MIDIPortDispose midiInputPort, .CFRelease data,
                           .CFAllocatorDeallocate inputRef] } := by
  simp [SCMMIDIInputDispose, Heap.read, hrec, field, MIDIPortDispose, CFRelease, hbuf,
    bind, Except.bind, pure, Except.pure]

/-- C7. Disposal order: disposing a destination (`SCMMIDIDestinationDispose`) or an input
(`SCMMIDIInputDispose`) whose record and receive buffer are live returns without touching
a released object, and the three releases happen in this order: first the driver endpoint
(respectively the input port) that carries the receive callback, then the receive buffer,
last the record itself. -/
theorem dispose_releases_in_order (w : World) (ref handle data : Nat) (bytes : List Byte)
    (hbuf : w.datas.get data = some bytes) :
    (w.destinations.get ref = some { midiDestination := some handle, receivedMidi := some data } →
      SCMMIDIDestinationDispose ref w
        = .ok { w with
            endpoints := w.endpoints.erase handle,
            datas := w.datas.free data,
            destinations := w.destinations.free ref,
            log := w.log ++ [.MIDIEndpointDispose handle, .CFRelease data,
                             .CFAllocatorDeallocate ref] }) ∧
    (w.inputs.get ref = some { midiInputPort := some handle, receivedMidi := some data } →
      SCMMIDIInputDispose ref w
        = .ok { w with
            ports := w.ports.erase handle,
            datas := w.datas.free data,
            inputs := w.inputs.free ref,
            log := w.log ++ [.MIDIPortDispose handle, .CFRelease data,
                             .CFAllocatorDeallocate ref] }) :=
  ⟨SCMMIDIDestinationDispose_ok w ref handle data bytes hbuf,
    SCMMIDIInputDispose_ok w ref handle data bytes hbuf⟩

/-! ## Lookup by name -/

theorem SCMFindMIDIInput_loop_no_match (d : Driver) (name : String) :
    ∀ (l : List (MIDIEndpointRef × String)) (w : World), (∀ e ∈ l, strcmp e.2 name ≠ 0) →
      SCMFindMIDIInput.loop d name l w = .ok (.pyNone, w) := by
  intro l
  induction l with
  | nil => intro w _; rfl
  | cons e rest ih =>
    intro w h
    obtain ⟨midiSource, str⟩ := e
    have hne : strcmp str name ≠ 0 := h (midiSource, str) (List.mem_cons_self _ _)
    simp only [SCMFindMIDIInput.loop, hne, if_false]
    exact ih w (fun e he => h e (List.mem_cons_of_mem _ he))

theorem SCMFindMIDIOutput_loop_no_match (d : Driver) (name : String) :
    ∀ (l : List (MIDIEndpointRef × String)) (w : World), (∀ e ∈ l, strcmp e.2 name ≠ 0) →
      SCMFindMIDIOutput.loop d name l w = .ok (.pyNone, w) := by
  intro l
  induction l with
  | nil => intro w _; rfl
  | cons e rest ih =>
    intro w h
    obtain ⟨midiDest, str⟩ := e
    have hne : strcmp str name ≠ 0 := h (midiDest, str) (List.mem_cons_self _ _)
    simp only [SCMFindMIDIOutput.loop, hne, if_false]
    exact ih w (fun e he => h e (List.mem_cons_of_mem _ he))

theorem SCMFindMIDIInput_loop_first_match (d : Driver) (name str : String)
    (midiSource : MIDIEndpointRef) :
    ∀ (l : List (MIDIEndpointRef × String)) (w : World),
      l.find? (fun e => decide (strcmp e.2 name = 0)) = some (midiSource, str) →
      SCMFindMIDIInput.loop d name l w
        = SCMFindMIDIInput.loop d name [(midiSource, str)] w := by
  intro l
  induction l with
  | nil => intro w h; simp at h
  | cons e rest ih =>
    intro w h
    obtain ⟨src, str1⟩ := e
    by_cases hstr : strcmp str1 name = 0
    · simp only [List.find?, hstr, decide_True, Option.some.injEq, Prod.mk.injEq] at h
      simp [SCMFindMIDIInput.loop, hstr, ← h.1, ← h.2]
    · simp only [List.find?, hstr, decide_False] at h
      simp only [SCMFindMIDIInput.loop, hstr, if_false]
      exact ih w h

theorem SCMFindMIDIOutput_loop_first_match (d : Driver) (name str : String)
    (midiDest : MIDIEndpointRef) :
    ∀ (l : List (MIDIEndpointRef × String)) (w : World),
      l.find? (fun e => decide (strcmp e.2 name = 0)) = some (midiDest, str) →
      SCMFindMIDIOutput.loop d name l w
        = SCMFindMIDIOutput.loop d name [(midiDest, str)] w := by
  intro l
  induction l with
  | nil => intro w h; simp at h
  | cons e rest ih =>
    intro w h
    obtain ⟨dst, str1⟩ := e
    by_cases hstr : strcmp str1 name = 0
    · simp only [List.find?, hstr, decide_True, Option.some.injEq, Prod.mk.injEq] at h
      simp [SCMFindMIDIOutput.loop, hstr, ← h.1, ← h.2]
    · simp only [List.find?, hstr, decide_False] at h
      simp only [SCMFindMIDIOutput.loop, hstr, if_false]
      exact ih w h

theorem strcmp_of_find {l : List (MIDIEndpointRef × String)} {name str : String}
    {endpoint : MIDIEndpointRef}
    (h : l.find? (fun e => decide (strcmp e.2 name = 0)) = some (endpoint, str)) :
    strcmp str name = 0 := by
  have := List.find?_some h
  simpa using this

theorem SCMMIDIInputCreate_connect_fails (d : Driver) (name : String)
    (midiSource : MIDIEndpointRef) (w : World) (port : MIDIPortRef)
    (hport : d.inputPortCreate (SCMGlobalMIDIClient d w).1 name = some port)
    (hconn : d.portConnectSource port midiSource ≠ 0) :
    SCMMIDIInputCreate d name midiSource w
      = .ok (none, { w with
          midiClient := (SCMGlobalMIDIClient d w).1,
          next := w.next + 2,
          log := w.log ++ [.CFAllocatorAllocate w.next, .CFDataCreateMutable (w.next + 1)]
            ++ clientEvents w
            ++ [.MIDIInputPortCreate name w.next, .MIDIPortConnectSource port midiSource,
                .MIDIPortDispose port, .CFRelease (w.next + 1),
                .CFAllocatorDeallocate w.next] }) := by
  by_cases hclient : w.midiClient = 0
  · cases hcc : d.clientCreate with
    | none =>
      simp only [SCMGlobalMIDIClient, hclient, hcc, if_true] at hport
      simp [SCMMIDIInputCreate, CFDataCreateMutable, Heap.read, Heap.store, Heap.get, Heap.set,
        Heap.free, SCMGlobalMIDIClient, hclient, hcc, World.emit, hport, field, hconn,
        MIDIPortDispose, CFRelease, clientEvents, bind, Except.bind, pure, Except.pure]
    | some c =>
      simp only [SCMGlobalMIDIClient, hclient, hcc, if_true] at hport
      simp [SCMMIDIInputCreate, CFDataCreateMutable, Heap.read, Heap.store, Heap.get, Heap.set,
        Heap.free, SCMGlobalMIDIClient, hclient, hcc, World.emit, hport, field, hconn,
        MIDIPortDispose, CFRelease, clientEvents, bind, Except.bind, pure, Except.pure]
  · simp only [SCMGlobalMIDIClient, hclient, if_false] at hport
    simp [SCMMIDIInputCreate, CFDataCreateMutable, Heap.read, Heap.store, Heap.get, Heap.set,
      Heap.free, SCMGlobalMIDIClient, hclient, World.emit, hport, field, hconn,
      MIDIPortDispose, CFRelease, clientEvents, bind, Except.bind, pure, Except.pure]

theorem SCMMIDIOutputCreate_port_fails (d : Driver) (midiDest : MIDIEndpointRef) (w : World)
    (hport : d.outputPortCreate (SCMGlobalMIDIClient d w).1 = none) :
    SCMMIDIOutputCreate d midiDest w
      = .ok (none, { w with
          midiClient := (SCMGlobalMIDIClient d w).1,
          next := w.next + 1,
          log := w.log ++ [.CFAllocatorAllocate w.next] ++ clientEvents w
            ++ [.MIDIOutputPortCreate, .CFAllocatorDeallocate w.next] }) := by
  by_cases hclient : w.midiClient = 0
  · cases hcc : d.clientCreate with
    | none =>
      simp only [SCMGlobalMIDIClient, hclient, hcc, if_true] at hport
      simp [SCMMIDIOutputCreate, Heap.read, Heap.store, Heap.get, Heap.set, Heap.free,
        SCMGlobalMIDIClient, hclient, hcc, World.emit, hport, clientEvents, bind, Except.bind,
        pure, Except.pure]
    | some c =>
      simp only [SCMGlobalMIDIClient, hclient, hcc, if_true] at hport
      simp [SCMMIDIOutputCreate, Heap.read, Heap.store, Heap.get, Heap.set, Heap.free,
        SCMGlobalMIDIClient, hclient, hcc, World.emit, hport, clientEvents, bind, Except.bind,
        pure, Except.pure]
  · simp only [SCMGlobalMIDIClient, hclient, if_false] at hport
    simp [SCMMIDIOutputCreate, Heap.read, Heap.store, Heap.get, Heap.set, Heap.free,
      SCMGlobalMIDIClient, hclient, World.emit, hport, clientEvents, bind, Except.bind,
      pure, Except.pure]

/-- C8, as amended. Input-port rollback: when the first source whose name equals the
argument under `strcmp` is `midiSource`, the driver opens the input port and then refuses
to connect it to `midiSource`, `find_input` reports the failure as an `IOError` (not a
handle, not `None`); the port, the receive buffer and the record allocated during the call
are released in that order, so that the live endpoints, ports, buffers and records are
those before the call. The client is the exception: when `_midiClient` was not yet created
the call creates it and it stays. -/
theorem find_input_connect_failure_rolls_back (d : Driver) (name str : String)
    (midiSource : MIDIEndpointRef) (w : World) (port : MIDIPortRef)
    (hmatch : d.sources.find? (fun e => decide (strcmp e.2 name = 0)) = some (midiSource, str))
    (hport : d.inputPortCreate (SCMGlobalMIDIClient d w).1 str = some port)
    (hconn : d.portConnectSource port midiSource ≠ 0) :
    ∃ w1 : World,
      SCMFindMIDIInput d name w = .ok (.ioError "Unable to create MIDIInput.", w1) ∧
      w1.log = w.log ++ [.CFAllocatorAllocate w.next, .CFDataCreateMutable (w.next + 1)]
        ++ clientEvents w
        ++ [.MIDIInputPortCreate str w.next, .MIDIPortConnectSource port midiSource,
            .MIDIPortDispose port, .CFRelease (w.next + 1), .CFAllocatorDeallocate w.next] ∧
      w1.live = { w.live with client := (SCMGlobalMIDIClient d w).1 } ∧
      (w.midiClient ≠ 0 → w1.live = w.live) := by
  refine ⟨{ w with
      midiClient := (SCMGlobalMIDIClient d w).1,
      next := w.next + 2,
      log := w.log ++ [.CFAllocatorAllocate w.next, .CFDataCreateMutable (w.next + 1)]
        ++ clientEvents w
        ++ [.MIDIInputPortCreate str w.next, .MIDIPortConnectSource port midiSource,
            .MIDIPortDispose port, .CFRelease (w.next + 1),
            .CFAllocatorDeallocate w.next] }, ?_, rfl, rfl, ?_⟩
  · unfold SCMFindMIDIInput
    rw [SCMFindMIDIInput_loop_first_match d name str midiSource _ w hmatch]
    simp only [SCMFindMIDIInput.loop, strcmp_of_find hmatch, if_true,
      SCMMIDIInputCreate_connect_fails d str midiSource w port hport hconn]
  · intro hclient
    simp [World.live, SCMGlobalMIDIClient, hclient]

/-- C9, as amended. Output-port rollback: when the first destination whose name equals the
argument under `strcmp` is `midiDest` and the driver refuses to create the output port,
`find_output` reports the failure as an `IOError` (not a handle, not `None`) and the
partially built record is deallocated, so that the live endpoints, ports, buffers and
records are those before the call. Nothing is done to the destination endpoint: the call
issues no `MIDIEndpointDispose`. -/
theorem find_output_port_failure_rolls_back (d : Driver) (name str : String)
    (midiDest : MIDIEndpointRef) (w : World)
    (hmatch : d.destinations.find? (fun e => decide (strcmp e.2 name = 0))
      = some (midiDest, str))
    (hport : d.outputPortCreate (SCMGlobalMIDIClient d w).1 = none) :
    ∃ w1 : World,
      SCMFindMIDIOutput d name w = .ok (.ioError "Unable to create MIDIOutput.", w1) ∧
      w1.log = w.log ++ [.CFAllocatorAllocate w.next] ++ clientEvents w
        ++ [.MIDIOutputPortCreate, .CFAllocatorDeallocate w.next] ∧
      w1.live = { w.live with client := (SCMGlobalMIDIClient d w).1 } ∧
      (∀ endpoint, Event.MIDIEndpointDispose endpoint ∉ w1.log.drop w.log.length) := by
  refine ⟨{ w with
      midiClient := (SCMGlobalMIDIClient d w).1,
      next := w.next + 1,
      log := w.log ++ [.CFAllocatorAllocate w.next] ++ clientEvents w
        ++ [.MIDIOutputPortCreate, .CFAllocatorDeallocate w.next] }, ?_, rfl, rfl, ?_⟩
  · unfold SCMFindMIDIOutput
    rw [SCMFindMIDIOutput_loop_first_match d name str midiDest _ w hmatch]
    simp only [SCMFindMIDIOutput.loop, strcmp_of_find hmatch, if_true,
      SCMMIDIOutputCreate_port_fails d midiDest w hport]
  · intro endpoint
    simp only [List.append_assoc, List.drop_left]
    unfold clientEvents
    split <;> simp

/-- C10, as amended. Not found is a normal result: when no enumerated source
(respectively destination) has a name equal to the argument under `strcmp`, that is, as C
strings that end at their first NUL, `find_input` (respectively `find_output`) returns
`None` without raising, and the state is the one before the call: no port, buffer or
record is created and no driver call is logged. -/
theorem find_without_match_returns_none (d : Driver) (name : String) (w : World) :
    ((∀ e ∈ d.sources, strcmp e.2 name ≠ 0) → SCMFindMIDIInput d name w = .ok (.pyNone, w)) ∧
    ((∀ e ∈ d.destinations, strcmp e.2 name ≠ 0) →
      SCMFindMIDIOutput d name w = .ok (.pyNone, w)) :=
  ⟨SCMFindMIDIInput_loop_no_match d name d.sources w,
    SCMFindMIDIOutput_loop_no_match d name d.destinations w⟩

/-! ## The `int` counter of the receive functions -/

theorem World.withBuffer_same (w : World) (data : Nat) (S : List Byte)
    (hbuf : w.datas.get data = some S) : w.withBuffer data S = w := by
  cases w
  simp only [World.withBuffer] at hbuf ⊢
  simp [Heap.set_same _ _ _ hbuf]

theorem length_flatten_replicate (b : List Byte) :
    ∀ n : Nat, ((List.replicate n b).flatten).length = n * b.length := by
  intro n
  induction n with
  | zero => simp
  | succ k ih => simp [List.replicate_succ, ih, Nat.succ_mul, Nat.add_comm]

theorem runBufferOps_replicate_append (destRef data : Nat) (record : SCMMIDIDestination)
    (hfield : record.receivedMidi = some data) (pktList : MIDIPacketList)
    (hwf : pktList.WellFormed) (rest : List BufferOp) :
    ∀ (n : Nat) (w : World) (S : List Byte),
      w.destinations.get destRef = some record →
      w.datas.get data = some S →
      runBufferOps destRef (List.replicate n (.append pktList) ++ rest) w
        = runBufferOps destRef rest
            (w.withBuffer data (S ++ (List.replicate n pktList.bytes).flatten)) := by
  intro n
  induction n with
  | zero =>
    intro w S _ hbuf
    simp [World.withBuffer_same w data S hbuf]
  | succ k ih =>
    intro w S hrec hbuf
    have step := ih (w.withBuffer data (S ++ pktList.bytes)) (S ++ pktList.bytes) hrec
      (World.withBuffer_get w data S _ hbuf)
    rw [List.replicate_succ, List.cons_append]
    simp only [runBufferOps,
      SCMRecvMIDIProc_ok pktList w destRef data S record hwf hbuf hrec hfield]
    rw [step, World.withBuffer_withBuffer, List.replicate_succ, List.flatten_cons,
      List.append_assoc]

theorem runBufferOps_drain_fault (destRef : Nat) (w : World) (f : Fault)
    (h : SCMRecvMidi (some destRef) w = .error f) :
    runBufferOps destRef [.drain] w = .error f := by
  simp [runBufferOps, h]

theorem hugeOps_wellFormed :
    ∀ pktList, BufferOp.append pktList ∈ hugeOps → pktList.WellFormed := by
  intro pktList h
  simp only [hugeOps, List.mem_append, List.mem_replicate, BufferOp.append.injEq,
    List.mem_singleton, reduceCtorEq, or_false] at h
  rw [h.2]
  exact singlePacket_wellFormed _ _

/-- C3, the code at the failing input: for a destination and an input whose receive
buffers hold `2^31` bytes, the copy loop of `recv_midi` and of `recv_midi_from_input`
increments its `int` counter past `INT_MAX` before the `CFIndex` length is reached; the
run ends in undefined behaviour, nothing is returned and the buffer is not emptied. -/
theorem drain_of_huge_buffer_overflows_counter :
    hugeWorld.destinations.get 100
      = some { midiDestination := some 10, receivedMidi := some 101 } ∧
    hugeWorld.datas.get 101 = some (List.replicate 2147483648 0) ∧
    hugeWorld.inputs.get 102 = some { midiInputPort := some 20, receivedMidi := some 103 } ∧
    hugeWorld.datas.get 103 = some (List.replicate 2147483648 0) ∧
    SCMRecvMidi (some 100) hugeWorld = .error (.counterOverflow 2147483647) ∧
    SCMRecvMidiFromInput (some 102) hugeWorld = .error (.counterOverflow 2147483647) :=
  ⟨rfl, rfl, rfl, rfl,
    SCMRecvMidi_overflow hugeWorld 100 101 (List.replicate 2147483648 0)
      { midiDestination := some 10, receivedMidi := some 101 }
      (by simp only [List.length_replicate, INT_MAX]; omega) rfl rfl rfl,
    SCMRecvMidiFromInput_overflow hugeWorld 102 103 (List.replicate 2147483648 0)
      { midiInputPort := some 20, receivedMidi := some 103 }
      (by simp only [List.length_replicate, INT_MAX]; omega) rfl rfl rfl⟩

/-- C4, the code at the failing input: on a destination whose buffer is empty, `2^21`
deliveries of one well-formed packet of 1024 bytes followed by one `recv_midi` do not run
to the end: the buffer holds `2^31` bytes when the drain starts and the `int` counter of
its copy loop overflows, so the trace has no drain result to concatenate. -/
theorem trace_filling_huge_buffer_overflows_counter :
    (∀ pktList, BufferOp.append pktList ∈ hugeOps → pktList.WellFormed) ∧
    testDestWorld.destinations.get 1
      = some { midiDestination := some 10, receivedMidi := some 2 } ∧
    testDestWorld.datas.get 2 = some [] ∧
    runBufferOps 1 hugeOps testDestWorld = .error (.counterOverflow 2147483647) := by
  refine ⟨hugeOps_wellFormed, rfl, rfl, ?_⟩
  have hrun := runBufferOps_replicate_append 1 2
    { midiDestination := some 10, receivedMidi := some 2 } rfl
    (singlePacket 0 (List.replicate 1024 0)) (singlePacket_wellFormed _ _) [.drain]
    2097152 testDestWorld [] rfl rfl
  have hlen : INT_MAX
      < ([] ++ (List.replicate 2097152
          (singlePacket 0 (List.replicate 1024 (0 : Byte))).bytes).flatten).length := by
    rw [List.nil_append, length_flatten_replicate, singlePacket_bytes, List.length_replicate]
    unfold INT_MAX
    omega
  have hdrain := SCMRecvMidi_overflow
    (testDestWorld.withBuffer 2 ([] ++ (List.replicate 2097152
      (singlePacket 0 (List.replicate 1024 (0 : Byte))).bytes).flatten))
    1 2 _ { midiDestination := some 10, receivedMidi := some 2 } hlen
    (World.withBuffer_get testDestWorld 2 [] _ rfl) rfl rfl
  exact hrun.trans (runBufferOps_drain_fault 1 _ _ hdrain)

/-! ## The theorems at concrete inputs -/

theorem send_then_receive_round_trip_witness :
    ([0x90, 0x40, 0x7F] : List Byte).length ≤ stagingSize ∧
    SCMMIDIDestinationCreate demoDriver "Test Dest" freshWorld = .ok (1, testDestWorld) ∧
    testDestWorld.destinations.get 1
      = some { midiDestination := some 10, receivedMidi := some 2 } ∧
    testDestWorld.datas.get 2 = some [] ∧
    SCMSendMidi demoDriver 5 30 [0x90, 0x40, 0x7F] testDestWorld
      = .ok (.pyNone, testDestWorld.emit (.MIDIReceived 30 (singlePacket 5 [0x90, 0x40, 0x7F]))) ∧
    SCMRecvMIDIProc (singlePacket 5 [0x90, 0x40, 0x7F]) 1
        (testDestWorld.emit (.MIDIReceived 30 (singlePacket 5 [0x90, 0x40, 0x7F])))
      = .ok ((testDestWorld.emit (.MIDIReceived 30 (singlePacket 5 [0x90, 0x40, 0x7F]))).withBuffer
          2 [0x90, 0x40, 0x7F]) ∧
    SCMRecvMidi (some 1)
        ((testDestWorld.emit (.MIDIReceived 30 (singlePacket 5 [0x90, 0x40, 0x7F]))).withBuffer
          2 [0x90, 0x40, 0x7F])
      = .ok (.tuple [0x90, 0x40, 0x7F],
          (testDestWorld.emit (.MIDIReceived 30 (singlePacket 5 [0x90, 0x40, 0x7F]))).withBuffer
            2 []) :=
  ⟨by decide, rfl, rfl, rfl,
    send_then_receive_round_trip demoDriver 5 30 [0x90, 0x40, 0x7F] testDestWorld 1 2
      { midiDestination := some 10, receivedMidi := some 2 } (by decide) rfl rfl rfl⟩

theorem recv_returns_buffer_and_empties_it_witness :
    ([0x90, 0x40, 0x7F] : List Byte).length ≤ INT_MAX ∧
    demoWorld.datas.get 101 = some [0x90, 0x40, 0x7F] ∧
    demoWorld.destinations.get 100
      = some { midiDestination := some 10, receivedMidi := some 101 } ∧
    demoWorld.datas.get 103 = some [0x90, 0x40, 0x7F] ∧
    demoWorld.inputs.get 102 = some { midiInputPort := some 20, receivedMidi := some 103 } ∧
    (SCMRecvMidi (some 100) demoWorld
        = .ok (.tuple [0x90, 0x40, 0x7F], demoWorld.withBuffer 101 []) ∧
      (demoWorld.withBuffer 101 []).datas.get 101 = some [] ∧
      SCMRecvMidi (some 100) (demoWorld.withBuffer 101 [])
        = .ok (.tuple [], demoWorld.withBuffer 101 [])) ∧
    (SCMRecvMidiFromInput (some 102) demoWorld
        = .ok (.tuple [0x90, 0x40, 0x7F], demoWorld.withBuffer 103 []) ∧
      (demoWorld.withBuffer 103 []).datas.get 103 = some [] ∧
      SCMRecvMidiFromInput (some 102) (demoWorld.withBuffer 103 [])
        = .ok (.tuple [], demoWorld.withBuffer 103 [])) :=
  ⟨by decide, rfl, rfl, rfl, rfl,
    (recv_returns_buffer_and_empties_it demoWorld 100 101 [0x90, 0x40, 0x7F] (by decide) rfl).1
      { midiDestination := some 10, receivedMidi := some 101 } rfl rfl,
    (recv_returns_buffer_and_empties_it demoWorld 102 103 [0x90, 0x40, 0x7F] (by decide) rfl).2
      { midiInputPort := some 20, receivedMidi := some 103 } rfl rfl⟩

theorem demoOps_wellFormed :
    ∀ pktList, BufferOp.append pktList ∈ demoOps → pktList.WellFormed := by
  intro pktList h
  simp only [demoOps, List.mem_cons, BufferOp.append.injEq, List.not_mem_nil,
    reduceCtorEq, false_or, or_false] at h
  rcases h with rfl | rfl | rfl
  · decide
  · exact singlePacket_wellFormed _ _
  · decide

theorem drains_partition_appended_bytes_witness :
    (∀ pktList, BufferOp.append pktList ∈ demoOps → pktList.WellFormed) ∧
    (appendedBytes demoOps).length ≤ INT_MAX ∧
    testDestWorld.destinations.get 1
      = some { midiDestination := some 10, receivedMidi := some 2 } ∧
    testDestWorld.datas.get 2 = some [] ∧
    runBufferOps 1 demoOps testDestWorld
      = .ok ([.tuple [0x80, 0x40, 0x00, 0xC0, 0x05], .tuple [0x90, 0x40, 0x7F], .tuple []],
             testDestWorld.withBuffer 2 [0x80, 0x40, 0x00, 0xC0, 0x05]) ∧
    appendedBytes demoOps
      = [0x80, 0x40, 0x00, 0xC0, 0x05, 0x90, 0x40, 0x7F, 0x80, 0x40, 0x00, 0xC0, 0x05] ∧
    ∃ (drains : List (List Byte)) (rest : List Byte) (w1 : World),
      runBufferOps 1 demoOps testDestWorld = .ok (drains.map pyTuple, w1) ∧
      w1.datas.get 2 = some rest ∧
      drains.flatten ++ rest = appendedBytes demoOps :=
  ⟨demoOps_wellFormed, by decide, rfl, rfl, rfl, rfl,
    drains_partition_appended_bytes demoOps testDestWorld 1 2
      { midiDestination := some 10, receivedMidi := some 2 } demoOps_wellFormed (by decide)
      rfl rfl rfl⟩

theorem recv_callbacks_append_packet_bytes_witness :
    demoPktList.WellFormed ∧
    demoWorld.datas.get 101 = some [0x90, 0x40, 0x7F] ∧
    demoWorld.datas.get 103 = some [0x90, 0x40, 0x7F] ∧
    demoPktList.bytes = [0x80, 0x40, 0x00, 0xC0, 0x05] ∧
    (SCMRecvMIDIProc demoPktList 100 demoWorld
        = .ok (demoWorld.withBuffer 101 ([0x90, 0x40, 0x7F] ++ demoPktList.bytes)) ∧
      (demoWorld.withBuffer 101 ([0x90, 0x40, 0x7F] ++ demoPktList.bytes)).datas.get 101
        = some ([0x90, 0x40, 0x7F] ++ demoPktList.bytes)) ∧
    (SCMRecvMIDIInputProc demoPktList 102 demoWorld
        = .ok (demoWorld.withBuffer 103 ([0x90, 0x40, 0x7F] ++ demoPktList.bytes)) ∧
      (demoWorld.withBuffer 103 ([0x90, 0x40, 0x7F] ++ demoPktList.bytes)).datas.get 103
        = some ([0x90, 0x40, 0x7F] ++ demoPktList.bytes)) :=
  ⟨by decide, rfl, rfl, rfl,
    (recv_callbacks_append_packet_bytes demoPktList demoWorld 100 101 [0x90, 0x40, 0x7F]
      (by decide) rfl).1 { midiDestination := some 10, receivedMidi := some 101 } rfl rfl,
    (recv_callbacks_append_packet_bytes demoPktList demoWorld 102 103 [0x90, 0x40, 0x7F]
      (by decide) rfl).2 { midiInputPort := some 20, receivedMidi := some 103 } rfl rfl⟩

theorem dispose_releases_in_order_witness :
    demoWorld.datas.get 101 = some [0x90, 0x40, 0x7F] ∧
    demoWorld.datas.get 103 = some [0x90, 0x40, 0x7F] ∧
    SCMMIDIDestinationDispose 100 demoWorld
      = .ok { demoWorld with
          endpoints := [], datas := [(103, [0x90, 0x40, 0x7F])], destinations := [],
          log := [.MIDIEndpointDispose 10, .CFRelease 101, .CFAllocatorDeallocate 100] } ∧
    SCMMIDIInputDispose 102 demoWorld
      = .ok { demoWorld with
          ports := [21], datas := [(101, [0x90, 0x40, 0x7F])], inputs := [],
          log := [.MIDIPortDispose 20, .CFRelease 103, .CFAllocatorDeallocate 102] } :=
  ⟨rfl, rfl,
    (dispose_releases_in_order demoWorld 100 10 101 [0x90, 0x40, 0x7F] rfl).1 rfl,
    (dispose_releases_in_order demoWorld 102 20 103 [0x90, 0x40, 0x7F] rfl).2 rfl⟩

/-- C8, the claim as stated fails: in a fresh process, under a driver that enumerates the
source `IAC Driver Bus 1`, opens the input port and refuses the connection,
`find_input("IAC Driver Bus 1")` reports the failure and releases port, buffer and record,
yet the live resources are not those before the call: the client created on the way
stays. -/
theorem find_input_connect_failure_keeps_new_client :
    demoDriver.sources.find? (fun e => decide (e.2 = "IAC Driver Bus 1"))
      = some (30, "IAC Driver Bus 1") ∧
    demoDriver.sources.find? (fun e => decide (strcmp e.2 "IAC Driver Bus 1" = 0))
      = some (30, "IAC Driver Bus 1") ∧
    demoDriver.portConnectSource 20 30 ≠ 0 ∧
    SCMFindMIDIInput demoDriver "IAC Driver Bus 1" freshWorld
      = .ok (.ioError "Unable to create MIDIInput.", afterFailedFindInput) ∧
    afterFailedFindInput.live ≠ freshWorld.live ∧
    freshWorld.live.client = 0 ∧ afterFailedFindInput.live.client = 1 :=
  ⟨rfl, rfl, by decide, rfl, by decide, rfl, rfl⟩

theorem find_input_connect_failure_rolls_back_witness :
    demoDriver.sources.find? (fun e => decide (strcmp e.2 "IAC Driver Bus 1" = 0))
      = some (30, "IAC Driver Bus 1") ∧
    demoDriver.inputPortCreate (SCMGlobalMIDIClient demoDriver demoWorld).1 "IAC Driver Bus 1"
      = some 20 ∧
    demoDriver.portConnectSource 20 30 ≠ 0 ∧
    ∃ w1 : World,
      SCMFindMIDIInput demoDriver "IAC Driver Bus 1" demoWorld
        = .ok (.ioError "Unable to create MIDIInput.", w1) ∧
      w1.log = demoWorld.log
        ++ [.CFAllocatorAllocate demoWorld.next, .CFDataCreateMutable (demoWorld.next + 1)]
        ++ clientEvents demoWorld
        ++ [.MIDIInputPortCreate "IAC Driver Bus 1" demoWorld.next,
            .MIDIPortConnectSource 20 30, .MIDIPortDispose 20,
            .CFRelease (demoWorld.next + 1), .CFAllocatorDeallocate demoWorld.next] ∧
      w1.live = { demoWorld.live with client := (SCMGlobalMIDIClient demoDriver demoWorld).1 } ∧
      (demoWorld.midiClient ≠ 0 → w1.live = demoWorld.live) :=
  ⟨rfl, rfl, by decide,
    find_input_connect_failure_rolls_back demoDriver "IAC Driver Bus 1" "IAC Driver Bus 1" 30
      demoWorld 20 rfl rfl (by decide)⟩

/-- C9, the claim as stated fails: in a fresh process, under a driver that enumerates the
destination `IAC Driver Bus 1` (endpoint `31`) and refuses to create the output port,
`find_output("IAC Driver Bus 1")` reports the failure and deallocates the record, and the
log of the call holds no `MIDIEndpointDispose` of endpoint `31`: the destination reference
is not released the way `SCMMIDIOutputDispose` releases it. -/
theorem find_output_port_failure_leaves_destination :
    demoDriver.destinations.find? (fun e => decide (e.2 = "IAC Driver Bus 1"))
      = some (31, "IAC Driver Bus 1") ∧
    demoDriver.destinations.find? (fun e => decide (strcmp e.2 "IAC Driver Bus 1" = 0))
      = some (31, "IAC Driver Bus 1") ∧
    demoDriver.outputPortCreate (SCMGlobalMIDIClient demoDriver freshWorld).1 = none ∧
    SCMFindMIDIOutput demoDriver "IAC Driver Bus 1" freshWorld
      = .ok (.ioError "Unable to create MIDIOutput.", afterFailedFindOutput) ∧
    afterFailedFindOutput.log
      = [.CFAllocatorAllocate 1, .MIDIClientCreate, .MIDIOutputPortCreate,
         .CFAllocatorDeallocate 1] ∧
    Event.MIDIEndpointDispose 31 ∉ afterFailedFindOutput.log ∧
    SCMMIDIOutputDispose 104 demoWorld
      = .ok { demoWorld with
          ports := [20], outputs := [],
          log := [.MIDIEndpointDispose 11, .MIDIPortDispose 21, .CFAllocatorDeallocate 104] } :=
  ⟨rfl, rfl, rfl, rfl, rfl, by decide, rfl⟩

theorem find_output_port_failure_rolls_back_witness :
    demoDriver.destinations.find? (fun e => decide (strcmp e.2 "IAC Driver Bus 1" = 0))
      = some (31, "IAC Driver Bus 1") ∧
    demoDriver.outputPortCreate (SCMGlobalMIDIClient demoDriver demoWorld).1 = none ∧
    ∃ w1 : World,
      SCMFindMIDIOutput demoDriver "IAC Driver Bus 1" demoWorld
        = .ok (.ioError "Unable to create MIDIOutput.", w1) ∧
      w1.log = demoWorld.log ++ [.CFAllocatorAllocate demoWorld.next] ++ clientEvents demoWorld
        ++ [.MIDIOutputPortCreate, .CFAllocatorDeallocate demoWorld.next] ∧
      w1.live = { demoWorld.live with client := (SCMGlobalMIDIClient demoDriver demoWorld).1 } ∧
      (∀ endpoint, Event.MIDIEndpointDispose endpoint ∉ w1.log.drop demoWorld.log.length) :=
  ⟨rfl, rfl,
    find_output_port_failure_rolls_back demoDriver "IAC Driver Bus 1" "IAC Driver Bus 1" 31
      demoWorld rfl rfl⟩

/-- C10, the claim as stated fails: the Python string `nulName` (the endpoint name, a NUL,
`junk`) equals no enumerated display name, yet `strcmp` stops at the NUL and finds the
two C strings equal: in a fresh process under `acceptingDriver`, `find_input(nulName)` and
`find_output(nulName)` return a handle, not `None`, and leave a port and a record (and for
the input a buffer) allocated. -/
theorem find_with_embedded_nul_matches_prefix :
    (∀ e ∈ acceptingDriver.sources, e.2 ≠ nulName) ∧
    (∀ e ∈ acceptingDriver.destinations, e.2 ≠ nulName) ∧
    cString nulName = "IAC Driver Bus 1" ∧
    SCMFindMIDIInput acceptingDriver nulName freshWorld
      = .ok (.inputCapsule 1, afterNulFindInput) ∧
    afterNulFindInput.live ≠ freshWorld.live ∧
    afterNulFindInput.live.ports = [20] ∧ afterNulFindInput.live.datas = [2] ∧
    afterNulFindInput.live.inputs = [1] ∧
    SCMFindMIDIOutput acceptingDriver nulName freshWorld
      = .ok (.outputCapsule 1, afterNulFindOutput) ∧
    afterNulFindOutput.live ≠ freshWorld.live ∧
    afterNulFindOutput.live.ports = [21] ∧ afterNulFindOutput.live.outputs = [1] :=
  ⟨by decide, by decide, rfl, rfl, by decide, rfl, rfl, rfl, rfl, by decide, rfl, rfl⟩

theorem find_without_match_returns_none_witness :
    (∀ e ∈ demoDriver.sources, strcmp e.2 "Nonexistent Device" ≠ 0) ∧
    (∀ e ∈ demoDriver.destinations, strcmp e.2 "Nonexistent Device" ≠ 0) ∧
    SCMFindMIDIInput demoDriver "Nonexistent Device" demoWorld = .ok (.pyNone, demoWorld) ∧
    SCMFindMIDIOutput demoDriver "Nonexistent Device" demoWorld = .ok (.pyNone, demoWorld) :=
  ⟨by decide, by decide,
    (find_without_match_returns_none demoDriver "Nonexistent Device" demoWorld).1 (by decide),
    (find_without_match_returns_none demoDriver "Nonexistent Device" demoWorld).2 (by decide)⟩

end SimpleCoreMidi
